import Mathlib

/-!
Verification development for the Easy-Language DSL-to-Python translator
(`compiler.py`).  The compiler works on Python strings; we embed strings as
`List Char` and mirror the Python string operations (`split`, `strip`,
`startswith`, ...) over the ASCII fragment the compiler manipulates.
Python exceptions are modelled by `Except PyErr`, distinguishing
`DSLCompilerError` (carrying line number, line text, message) from generic
`Exception`s (carrying only a message), because `compile_language` treats the
two differently at its per-line `except` boundary.
-/

set_option maxRecDepth 100000
set_option maxHeartbeats 1000000

/-- Python strings, embedded as lists of characters. -/
abbrev Str := List Char

/-- Shorthand for writing `Str` literals. -/
def str (s : String) : Str := s.toList

/-- The single-quote character (ASCII 39). -/
def squote : Char := Char.ofNat 39

/-- The double-quote character (ASCII 34). -/
def dquote : Char := Char.ofNat 34

/-- Python `s.rstrip()`: drop trailing whitespace. -/
def pyRstrip (s : Str) : Str := (s.reverse.dropWhile Char.isWhitespace).reverse

/-- Python `s.lstrip()`: drop leading whitespace. -/
def pyLstrip (s : Str) : Str := s.dropWhile Char.isWhitespace

/-- Python `s.strip()`. -/
def pyStrip (s : Str) : Str := pyRstrip (pyLstrip s)

/-- Split a list at every element satisfying `p`, keeping empty chunks
(the behaviour of Python `str.split(sep)` with an explicit separator).
Always returns at least one chunk. -/
def pySplit (p : Char → Bool) : Str → List Str
  | [] => [[]]
  | c :: cs =>
    if p c then [] :: pySplit p cs
    else
      match pySplit p cs with
      | w :: ws => (c :: w) :: ws
      | [] => [[c]]

/-- Python `s.split(c)` for a one-character separator. -/
def splitOnChar (c : Char) (s : Str) : List Str := pySplit (fun d => d = c) s

/-- Python `s.split()` (no argument): split on whitespace runs, discarding
empty chunks. -/
def pyWords (s : Str) : List Str :=
  (pySplit Char.isWhitespace s).filter (fun w => !w.isEmpty)

/-- Python `s.split(c, 1)`: the part before the first occurrence of `c` and
the part after it. -/
def splitOnCharFirst (c : Char) (s : Str) : Str × Str :=
  (s.takeWhile (fun d => d ≠ c), (s.dropWhile (fun d => d ≠ c)).drop 1)

/-- Python `s.lower()` (ASCII). -/
def toLowerStr (s : Str) : Str := s.map Char.toLower

/-- Python `"sep".join(parts)`. -/
def joinWith (sep : Str) (parts : List Str) : Str := List.intercalate sep parts

/-- Python `" ".join(parts)`. -/
def joinSp (parts : List Str) : Str := joinWith (str " ") parts

/-- The f-string template `f'"{s}"'`: wrap in double quotes. -/
def quoteD (s : Str) : Str := dquote :: s ++ [dquote]

/-- Render a `Nat` the way Python renders an `int` inside an f-string. -/
def natToStr (n : Nat) : Str := (toString n).toList

/-- Python `"    " * indent` (a negative count yields the empty string). -/
def indentStr (n : Int) : Str := List.flatten (List.replicate n.toNat (str "    "))

/-- Python `str.isidentifier`, restricted to the ASCII identifiers the DSL
uses: a letter or underscore followed by letters, digits or underscores. -/
def pyIsIdentifier (s : Str) : Bool :=
  match s with
  | [] => false
  | c :: cs => (c.isAlpha || c = '_') && cs.all (fun d => d.isAlphanum || d = '_')

/-- `normalize_booleans` (compiler.py line 69): map case-insensitive boolean
literals to the Python literals, leaving every other token unchanged. -/
def normalize_booleans (tokens : List Str) : List Str :=
  tokens.map (fun tok =>
    if toLowerStr tok = str "true" then str "True"
    else if toLowerStr tok = str "false" then str "False"
    else tok)

/-- Python `source.splitlines()`, for sources whose line breaks are `'\n'`:
split on newlines, without a trailing empty line for a trailing newline. -/
def splitlinesPy (s : Str) : List Str :=
  if s.isEmpty then []
  else
    let ps := splitOnChar '\n' s
    if s.getLast? = some '\n' then ps.dropLast else ps

/-- The exceptions `compile_language` distinguishes: `DSLCompilerError`
(compiler.py line 7, fields `line_number`, `line_text`, `message`) versus any
other Python exception, of which only `str(e)` survives the re-wrap. -/
inductive PyErr where
  | dsl (lineNumber : Nat) (lineText : Str) (message : Str)
  | exc (message : Str)
deriving DecidableEq

deriving instance DecidableEq for Except

/-- The message of Python's `IndexError` on list subscripts. -/
def idxErrMsg : Str := str "list index out of range"

/-- Python `tokens[i]`: raises `IndexError` when out of range. -/
def pyGet (l : List Str) (i : Nat) : Except PyErr Str :=
  match l[i]? with
  | some x => .ok x
  | none => .error (.exc idxErrMsg)

/-- `builtin_funcs` (compiler.py line 15): the core builtin-name registry. -/
def builtin_funcs : List Str :=
  [str "length", str "type", str "integer", str "float", str "string",
   str "list", str "tuple", str "dictionary", str "set", str "abs",
   str "maxof", str "minof", str "round", str "sumof", str "range",
   str "enumeratearray", str "helpfunction", str "directoryof",
   str "uppercase", str "lowercase", str "concat", str "exponent"]

/-- `math_funcs_mapping` (compiler.py line 20). -/
def math_funcs_mapping : List (Str × Str) :=
  [(str "sqrt", str "sqrt"), (str "ceil", str "ceil"),
   (str "floor", str "floor"), (str "mod", str "mod"),
   (str "log", str "log"), (str "sin", str "sin"),
   (str "cos", str "cos"), (str "tan", str "tan")]

/-- `list_array_funcs` (compiler.py line 468). -/
def list_array_funcs : List Str :=
  [str "append", str "remove", str "pop", str "indexof", str "countof",
   str "sortlist", str "uniquelist", str "reverse"]

/-- `dict_funcs` (compiler.py line 469). -/
def dict_funcs : List Str :=
  [str "keysfromdictionary", str "valuesfromdictionary",
   str "getvaluefromdictionary", str "setvalueindictionary",
   str "removekeyfromdictionary"]

/-- `bool_funcs` (compiler.py line 470). -/
def bool_funcs : List Str :=
  [str "logicalnot", str "logicaland", str "logicalor", str "logicalxor"]

/-- `math_funcs` (compiler.py line 471). -/
def math_funcs : List Str :=
  [str "sqrt", str "ceil", str "floor", str "mod", str "log",
   str "sin", str "cos", str "tan"]

/-- `file_funcs` (compiler.py line 472). -/
def file_funcs : List Str := [str "readfile", str "writefile", str "appendfile"]

/-- `screen_funcs` (compiler.py line 473). -/
def screen_funcs : List Str := [str "clearscreen", str "exitprogram"]

/-- `type_funcs` (compiler.py line 474). -/
def type_funcs : List Str :=
  [str "lengthof", str "typeof", str "integer", str "float", str "string",
   str "list", str "tuple", str "dictionary", str "set"]

/-- `aggregate_funcs` (compiler.py line 475). -/
def aggregate_funcs : List Str :=
  [str "abs", str "maxof", str "minof", str "round", str "sumof",
   str "range", str "enumeratearray", str "helpfunction", str "directoryof",
   str "uppercase", str "lowercase", str "concat", str "exponent"]

/-- `create_funcs` (compiler.py line 476). -/
def create_funcs : List Str :=
  [str "createtext", str "createarray", str "createdictionary"]

/-- `all_builtin_funcs` (compiler.py line 478): the union of all registries.
A Python `set` union deduplicates; list concatenation has the same
membership, which is all the compiler queries. -/
def all_builtin_funcs : List Str :=
  builtin_funcs ++ list_array_funcs ++ dict_funcs ++ bool_funcs ++
  math_funcs ++ file_funcs ++ screen_funcs ++ type_funcs ++
  aggregate_funcs ++ create_funcs

/-- `allowed_types` (compiler.py line 466).  Python iterates this `set` in an
unspecified order when building the `Invalid storage type` message; we fix the
literal order of the source text. -/
def allowed_types : List Str :=
  [str "number", str "integer", str "float", str "text", str "boolean",
   str "array", str "dictionary"]

/-- `compile_random_expression` (compiler.py line 439): the three
randomization forms.  `tokens[1]` is read unguarded, so a bare `random`
raises `IndexError`. -/
def compile_random_expression (tokens : List Str) : Except PyErr Str := do
  let t1 ← pyGet tokens 1
  if t1 = str "number" then
    match tokens with
    | [_, _, mn, sep, mx] =>
      if sep ≠ str "to" then
        .error (.exc (str "random number syntax: random number <min> to <max>"))
      else
        .ok (str "random.randint(" ++ mn ++ str ", " ++ mx ++ str ")")
    | _ => .error (.exc (str "random number syntax: random number <min> to <max>"))
  else if t1 = str "text" then
    let options := joinWith (str ", ")
      ((splitOnChar ',' (joinSp (tokens.drop 2))).map (fun opt => quoteD (pyStrip opt)))
    .ok (str "random.choice([" ++ options ++ str "])")
  else if t1 = str "boolean" then
    if tokens.length ≠ 2 then
      .error (.exc (str "random boolean syntax: random boolean"))
    else
      .ok (str "random.choice([True, False])")
  else
    .error (.exc (str "Unknown random type: " ++ t1 ++
      str ". Expected \x27number\x27, \x27text\x27, or \x27boolean\x27."))

/-- A Python value that is either a string or `None`.  When the compiler
interpolates it into an f-string, `None` renders as the text `None`. -/
def optToPy (o : Option Str) : Str :=
  match o with
  | none => str "None"
  | some s => s

/-- `normalize_booleans` preserves the number of tokens. -/
theorem length_normalize_booleans (l : List Str) :
    (normalize_booleans l).length = l.length := List.length_map _ _

/-- `takeWhile` never lengthens a list (used for termination). -/
theorem takeWhile_length_le (p : Str → Bool) (l : List Str) :
    (l.takeWhile p).length ≤ l.length := (List.takeWhile_sublist p).length_le

mutual

/-- `compile_builtin_expression` (compiler.py lines 74-437): one sequential
conditional chain over the (boolean-normalized) first token.  A branch whose
guard reads `tokens[1]` raises `IndexError` when only the name was supplied;
a guard of the form `func_name == X and tokens[1] in {...}` whose second
conjunct fails falls through the rest of the chain, and since no later branch
tests the same name the chain ends by returning Python `None` (`.ok none`).
The unused `args_str` local of the source is omitted. -/
def compile_builtin_expression (tokens : List Str) : Except PyErr (Option Str) :=
  let toks := normalize_booleans tokens
  match h : toks with
  | [] => .error (.exc idxErrMsg)
  | func_name :: rest =>
    if func_name = str "text" then
      if toks.length < 2 then .error (.exc (str "text requires a literal"))
      else .ok (some (quoteD (joinSp rest)))
    else if (math_funcs_mapping.lookup func_name).isSome then
      let python_func_name := (math_funcs_mapping.lookup func_name).getD []
      match rest with
      | [arg] =>
        .ok (some (str "math." ++ python_func_name ++ str "(" ++ arg ++ str ")"))
      | _ => .error (.exc (func_name ++ str " function requires one argument"))
    else if func_name = str "mod" then
      -- dead code in the source: "mod" is in math_funcs_mapping, so the
      -- previous branch always captures it first
      match splitOnChar ',' (joinSp rest) with
      | [a, b] => .ok (some (str "(" ++ pyStrip a ++ str ") % (" ++ pyStrip b ++ str ")"))
      | _ => .error (.exc (str "mod function requires two arguments separated by a comma"))
    else if func_name = str "log" then
      -- dead code, as for "mod"
      match splitOnChar ',' (joinSp rest) with
      | [a, b] => .ok (some (str "math.log(" ++ pyStrip a ++ str ", " ++ pyStrip b ++ str ")"))
      | _ => .error (.exc (str "log function requires two arguments (number, base) separated by a comma"))
    else if func_name = str "substring" then
      match rest with
      | [] => .error (.exc idxErrMsg)
      | t1 :: _ =>
        if t1 = str "text" then
          match toks with
          | [_, _, lit, k3, startE, k5, lenE] =>
            if k3 ≠ str "start" ∨ k5 ≠ str "length" then
              .error (.exc (str "substring syntax must include \x27start\x27 and \x27length\x27"))
            else
              .ok (some (str "(" ++ quoteD lit ++ str ")[" ++ startE ++ str ":" ++
                startE ++ str "+" ++ lenE ++ str "]"))
          | _ => .error (.exc (str "substring with literal requires: substring text <literal> start <start> length <length>"))
        else
          match toks with
          | [_, v, k2, startE, k4, lenE] =>
            if k2 ≠ str "start" ∨ k4 ≠ str "length" then
              .error (.exc (str "substring syntax must include \x27start\x27 and \x27length\x27"))
            else
              .ok (some (str "(" ++ v ++ str ")[" ++ startE ++ str ":" ++
                startE ++ str "+" ++ lenE ++ str "]"))
          | _ => .error (.exc (str "substring with variable requires: substring <variable> start <start> length <length>"))
    else if func_name = str "replace" then
      match rest with
      | [] => .error (.exc idxErrMsg)
      | t1 :: _ =>
        if t1 = str "text" then
          match toks with
          | [_, _, lit, k3, oldE, k5, newE] =>
            if k3 ≠ str "old" ∨ k5 ≠ str "new" then
              .error (.exc (str "replace syntax must include \x27old\x27 and \x27new\x27"))
            else
              .ok (some (str "(" ++ quoteD lit ++ str ").replace(" ++ quoteD oldE ++
                str ", " ++ quoteD newE ++ str ")"))
          | _ => .error (.exc (str "replace with literal requires: replace text <literal> old <old> new <new>"))
        else
          match toks with
          | [_, v, k2, oldE, k4, newE] =>
            if k2 ≠ str "old" ∨ k4 ≠ str "new" then
              .error (.exc (str "replace syntax must include \x27old\x27 and \x27new\x27"))
            else
              .ok (some (str "(" ++ v ++ str ").replace(" ++ oldE ++ str ", " ++ newE ++ str ")"))
          | _ => .error (.exc (str "replace with variable requires: replace <variable> old <old> new <new>"))
    else if func_name = str "split" then
      match rest with
      | [] => .error (.exc idxErrMsg)
      | t1 :: _ =>
        if t1 = str "text" then
          match toks with
          | [_, _, lit, k3, sep] =>
            if k3 ≠ str "by" then
              .error (.exc (str "split syntax must include \x27by\x27"))
            else
              .ok (some (str "(" ++ quoteD lit ++ str ").split(" ++ quoteD sep ++ str ")"))
          | _ => .error (.exc (str "split with literal requires: split text <literal> by <separator>"))
        else
          match toks with
          | [_, v, k2, sep] =>
            if k2 ≠ str "by" then
              .error (.exc (str "split syntax must include \x27by\x27"))
            else
              .ok (some (str "(" ++ v ++ str ").split(" ++ quoteD sep ++ str ")"))
          | _ => .error (.exc (str "split with variable requires: split <variable> by <separator>"))
    else if func_name = str "join" then
      match rest with
      | [] => .error (.exc idxErrMsg)
      | t1 :: _ =>
        if t1 = str "list" then
          match toks with
          | [_, _, list_expr, k3, sep] =>
            if k3 ≠ str "by" then
              .error (.exc (str "join syntax must include \x27by\x27"))
            else
              let sep_expr :=
                if sep.head? = some dquote ∧ sep.getLast? = some dquote then sep
                else quoteD sep
              .ok (some (sep_expr ++ str ".join([str(item) for item in " ++ list_expr ++ str "])"))
          | _ => .error (.exc (str "join with literal separator requires: join list <list> by <separator>"))
        else
          match toks with
          | [_, list_expr, k2, sep] =>
            if k2 ≠ str "by" then
              .error (.exc (str "join syntax must include \x27by\x27"))
            else
              let sep_expr :=
                if sep.head? = some dquote ∧ sep.getLast? = some dquote then sep
                else quoteD sep
              .ok (some (sep_expr ++ str ".join([str(item) for item in " ++ list_expr ++ str "])"))
          | _ => .error (.exc (str "join with variable requires: join <list> by <separator>"))
    else if func_name = str "reverse" then
      if rest.head? = some (str "text") then
        match toks with
        | [_, _, lit] =>
          .ok (some (str "(" ++ quoteD [] ++ str ".join(reversed(" ++ quoteD lit ++ str ")))"))
        | _ => .error (.exc (str "reverse text requires: reverse text <literal_or_variable>"))
      else if rest.head? = some (str "list") ∨ rest.head? = some (str "array") then
        match toks with
        | [_, _, list_expr] => .ok (some (list_expr ++ str "[::-1]"))
        | _ => .error (.exc (str "reverse list/array requires: reverse list <list> or reverse array <array>"))
      else
        match toks with
        | [_, v] =>
          .ok (some (str "(" ++ quoteD [] ++ str ".join(reversed(" ++ v ++ str ")))"))
        | _ => .error (.exc (str "reverse requires either \x27text\x27 or \x27list/array\x27 and one argument"))
    else if func_name = str "append" then
      match rest with
      | [] => .error (.exc idxErrMsg)
      | t1 :: _ =>
        if t1 = str "list" ∨ t1 = str "array" then
          match toks with
          | _ :: _ :: list_expr :: k3 :: vrest =>
            if k3 ≠ str "value" then
              .error (.exc (str "append syntax must include \x27value\x27"))
            else .ok (some (list_expr ++ str ".append(" ++ joinSp vrest ++ str ")"))
          | _ => .error (.exc (str "append list/array requires: append list|array <list_or_array> value <value>"))
        else .ok none
    else if func_name = str "remove" then
      match rest with
      | [] => .error (.exc idxErrMsg)
      | t1 :: _ =>
        if t1 = str "list" ∨ t1 = str "array" then
          match toks with
          | _ :: _ :: list_expr :: k3 :: vrest =>
            if k3 ≠ str "value" then
              .error (.exc (str "remove syntax must include \x27value\x27"))
            else .ok (some (list_expr ++ str ".remove(" ++ joinSp vrest ++ str ")"))
          | _ => .error (.exc (str "remove list/array requires: remove list|array <list_or_array> value <value>"))
        else .ok none
    else if func_name = str "pop" then
      match rest with
      | [] => .error (.exc idxErrMsg)
      | t1 :: _ =>
        if t1 = str "list" ∨ t1 = str "array" then
          match toks with
          | _ :: _ :: list_expr :: k3 :: vrest =>
            if k3 ≠ str "index" then
              .error (.exc (str "pop syntax must include \x27index\x27"))
            else .ok (some (list_expr ++ str ".pop(" ++ joinSp vrest ++ str ")"))
          | _ => .error (.exc (str "pop list/array requires: pop list|array <list_or_array> index <index>"))
        else .ok none
    else if func_name = str "indexof" then
      match rest with
      | [] => .error (.exc idxErrMsg)
      | t1 :: _ =>
        if t1 = str "list" ∨ t1 = str "array" then
          match toks with
          | _ :: _ :: list_expr :: k3 :: vrest =>
            if k3 ≠ str "value" then
              .error (.exc (str "indexof syntax must include \x27value\x27"))
            else .ok (some (list_expr ++ str ".index(" ++ joinSp vrest ++ str ")"))
          | _ => .error (.exc (str "indexof list/array requires: indexof list|array <list_or_array> value <value>"))
        else .ok none
    else if func_name = str "countof" then
      match rest with
      | [] => .error (.exc idxErrMsg)
      | t1 :: _ =>
        if t1 = str "list" ∨ t1 = str "array" then
          match toks with
          | _ :: _ :: list_expr :: k3 :: vrest =>
            if k3 ≠ str "value" then
              .error (.exc (str "countof syntax must include \x27value\x27"))
            else .ok (some (list_expr ++ str ".count(" ++ joinSp vrest ++ str ")"))
          | _ => .error (.exc (str "countof list/array requires: countof list|array <list_or_array> value <value>"))
        else .ok none
    else if func_name = str "sortlist" then
      match rest with
      | [] => .error (.exc idxErrMsg)
      | t1 :: _ =>
        if t1 = str "list" ∨ t1 = str "array" then
          match toks with
          | [_, _, list_expr] => .ok (some (list_expr ++ str ".sort()"))
          | _ => .error (.exc (str "sortlist list/array requires: sortlist list|array <list_or_array>"))
        else .ok none
    else if func_name = str "uniquelist" then
      match rest with
      | [] => .error (.exc idxErrMsg)
      | t1 :: _ =>
        if t1 = str "list" ∨ t1 = str "array" then
          match toks with
          | [_, _, list_expr] => .ok (some (str "list(dict.fromkeys(" ++ list_expr ++ str "))"))
          | _ => .error (.exc (str "uniquelist list/array requires: uniquelist list|array <list_or_array>"))
        else .ok none
    else if func_name = str "logicalnot" then
      match toks with
      | [_, a] => .ok (some (str "not " ++ a))
      | _ => .error (.exc (str "logicalnot function requires one argument"))
    else if func_name = str "logicaland" then
      match toks with
      | [_, a, b] => .ok (some (str "(" ++ a ++ str ") and (" ++ b ++ str ")"))
      | _ => .error (.exc (str "logicaland function requires two arguments"))
    else if func_name = str "logicalor" then
      match toks with
      | [_, a, b] => .ok (some (str "(" ++ a ++ str ") or (" ++ b ++ str ")"))
      | _ => .error (.exc (str "logicalor function requires two arguments"))
    else if func_name = str "logicalxor" then
      match toks with
      | [_, a, b] =>
        .ok (some (str "((" ++ a ++ str ") and (not " ++ b ++ str ")) or ((not " ++
          a ++ str ") and (" ++ b ++ str "))"))
      | _ => .error (.exc (str "logicalxor function requires two arguments"))
    else if func_name = str "keysfromdictionary" then
      match rest with
      | [] => .error (.exc idxErrMsg)
      | t1 :: _ =>
        if t1 = str "dictionary" then
          match toks with
          | [_, _, dict_expr] => .ok (some (str "list(" ++ dict_expr ++ str ".keys())"))
          | _ => .error (.exc (str "keysfromdictionary dictionary requires: keys dictionary <dictionary>"))
        else .ok none
    else if func_name = str "valuesfromdictionary" then
      match rest with
      | [] => .error (.exc idxErrMsg)
      | t1 :: _ =>
        if t1 = str "dictionary" then
          match toks with
          | [_, _, dict_expr] => .ok (some (str "list(" ++ dict_expr ++ str ".values())"))
          | _ => .error (.exc (str "valuesfromdictionary dictionary requires: values dictionary <dictionary>"))
        else .ok none
    else if func_name = str "getvaluefromdictionary" then
      match rest with
      | [] => .error (.exc idxErrMsg)
      | t1 :: _ =>
        if t1 = str "dictionary" then
          match toks with
          | [_, _, dict_expr, k3, key_expr] =>
            if k3 ≠ str "key" then
              .error (.exc (str "getvaluefromdictionary dictionary requires: getvaluefromdictionary dictionary <dictionary> key <key>"))
            else .ok (some (dict_expr ++ str ".get(" ++ key_expr ++ str ")"))
          | _ => .error (.exc (str "getvaluefromdictionary dictionary requires: getvaluefromdictionary dictionary <dictionary> key <key>"))
        else .ok none
    else if func_name = str "setvalueindictionary" then
      match rest with
      | [] => .error (.exc idxErrMsg)
      | t1 :: _ =>
        if t1 = str "dictionary" then
          match toks with
          | _ :: _ :: dict_expr :: k3 :: key_expr :: k5 :: value_tokens =>
            if k3 ≠ str "key" ∨ k5 ≠ str "value" then
              .error (.exc (str "setvalueindictionary dictionary requires: setvalueindictionary dictionary <dictionary> key <key> value <value>"))
            else
              let value_expr :=
                match value_tokens with
                | v0 :: vrest =>
                  if v0 = str "text" then quoteD (joinSp vrest)
                  else joinSp value_tokens
                | [] => joinSp value_tokens
              .ok (some (dict_expr ++ str "[" ++ key_expr ++ str "] = " ++ value_expr))
          | _ => .error (.exc (str "setvalueindictionary dictionary requires: setvalueindictionary dictionary <dictionary> key <key> value <value>"))
        else .ok none
    else if func_name = str "removekeyfromdictionary" then
      match rest with
      | [] => .error (.exc idxErrMsg)
      | t1 :: _ =>
        if t1 = str "dictionary" then
          match toks with
          | [_, _, k2, dict_expr, key_expr] =>
            if k2 ≠ str "key" then
              .error (.exc (str "removekeyfromdictionary dictionary requires: removekeyfromdictionary dictionary <dictionary> key <key>"))
            else .ok (some (str "del " ++ dict_expr ++ str "[" ++ key_expr ++ str "]"))
          | _ => .error (.exc (str "removekeyfromdictionary dictionary requires: removekeyfromdictionary dictionary <dictionary> key <key>"))
        else .ok none
    else if func_name = str "readfile" then
      match rest with
      | [] => .error (.exc idxErrMsg)
      | t1 :: _ =>
        if t1 = str "file" then
          match toks with
          | [_, _, path] => .ok (some (str "open(" ++ quoteD path ++ str ").read()"))
          | _ => .error (.exc (str "readfile file requires: read file <path>"))
        else .ok none
    else if func_name = str "writefile" then
      match rest with
      | [] => .error (.exc idxErrMsg)
      | t1 :: _ =>
        if t1 = str "file" then
          match toks with
          | _ :: _ :: path :: k3 :: w4 :: wrest =>
            if k3 ≠ str "text" then
              .error (.exc (str "writefile file requires: write file <path> text <content>"))
            else
              .ok (some (str "open(" ++ quoteD path ++ str ", \"w\").write(" ++
                quoteD (joinSp (w4 :: wrest)) ++ str ")"))
          | _ => .error (.exc (str "writefile file requires: write file <path> text <content>"))
        else .ok none
    else if func_name = str "appendfile" then
      match rest with
      | [] => .error (.exc idxErrMsg)
      | t1 :: _ =>
        if t1 = str "file" then
          match toks with
          | _ :: _ :: path :: k3 :: w4 :: wrest =>
            if k3 ≠ str "text" then
              .error (.exc (str "appendfile file requires: append file <path> text <content>"))
            else
              .ok (some (str "open(" ++ quoteD path ++ str ", \"a\").write(" ++
                quoteD (joinSp (w4 :: wrest)) ++ str ")"))
          | _ => .error (.exc (str "appendfile file requires: append file <path> text <content>"))
        else .ok none
    else if func_name = str "lengthof" then
      match toks with
      | [_, a] => .ok (some (str "len(" ++ a ++ str ")"))
      | _ => .error (.exc (str "lengthof function requires one argument (text or array)"))
    else if func_name = str "typeof" then
      match toks with
      | [_, a] => .ok (some (str "type(" ++ a ++ str ").__name__"))
      | _ => .error (.exc (str "typeof function requires one argument"))
    else if func_name = str "abs" then
      match toks with
      | [_, a] => .ok (some (str "abs(" ++ a ++ str ")"))
      | _ => .error (.exc (str "abs function requires one argument"))
    else if func_name = str "maxof" then
      let args := joinWith (str ", ") rest
      if args.isEmpty then .error (.exc (str "maxof function requires at least one argument"))
      else .ok (some (str "max(" ++ args ++ str ")"))
    else if func_name = str "minof" then
      let args := joinWith (str ", ") rest
      if args.isEmpty then .error (.exc (str "minof function requires at least one argument"))
      else .ok (some (str "min(" ++ args ++ str ")"))
    else if func_name = str "round" then
      match toks with
      | [_, a] => .ok (some (str "round(" ++ a ++ str ")"))
      | _ => .error (.exc (str "round function requires one argument"))
    else if func_name = str "sumof" then
      match toks with
      | [_, a] => .ok (some (str "sum(" ++ a ++ str ")"))
      | _ => .error (.exc (str "sumof function requires one argument (array)"))
    else if func_name = str "range" then
      match splitOnChar ',' (joinWith (str ", ") rest) with
      | [a] => .ok (some (str "list(range(" ++ pyStrip a ++ str "))"))
      | [a, b] =>
        .ok (some (str "list(range(" ++ pyStrip a ++ str ", " ++ pyStrip b ++ str " + 1))"))
      | _ => .error (.exc (str "range function requires one or two arguments (end) or (start, end)"))
    else if func_name = str "enumeratearray" then
      match toks with
      | [_, a] => .ok (some (str "list(enumerate(" ++ a ++ str "))"))
      | _ => .error (.exc (str "enumeratearray function requires one argument (array)"))
    else if func_name = str "helpfunction" then
      match toks with
      | [_, a] => .ok (some (str "help(" ++ a ++ str ")"))
      | _ => .error (.exc (str "helpfunction requires one argument (function name)"))
    else if func_name = str "directoryof" then
      match toks with
      | [_, a] => .ok (some (str "dir(" ++ a ++ str ")"))
      | _ => .error (.exc (str "directoryof function requires one argument (module name)"))
    else if func_name = str "uppercase" then
      match toks with
      | [_, a] => .ok (some (str "(" ++ a ++ str ").upper()"))
      | _ => .error (.exc (str "uppercase function requires one argument (text)"))
    else if func_name = str "lowercase" then
      match toks with
      | [_, a] => .ok (some (str "(" ++ a ++ str ").lower()"))
      | _ => .error (.exc (str "lowercase function requires one argument (text)"))
    else if func_name = str "concat" then
      match rest with
      | _ :: _ :: _ =>
        .ok (some (str "(\x27\x27).join([" ++
          joinWith (str ", ") (rest.map (fun x => str "str(" ++ x ++ str ")")) ++ str "])"))
      | _ => .error (.exc (str "concat function requires at least two arguments (texts)"))
    else if func_name = str "exponent" then
      match toks with
      | [_, a, b] => .ok (some (str "(" ++ a ++ str ")**(" ++ b ++ str ")"))
      | _ => .error (.exc (str "exponent function requires two arguments (base, exponent)"))
    else if func_name = str "clearscreen" then
      match toks with
      | [_] => .ok (some (str "os.system(\x27cls\x27 if os.name == \x27nt\x27 else \x27clear\x27)"))
      | _ => .error (.exc (str "clearscreen function does not require any arguments"))
    else if func_name = str "exitprogram" then
      match toks with
      | [_] => .ok (some (str "sys.exit()"))
      | _ => .error (.exc (str "exitprogram function does not require any arguments"))
    else if func_name = str "currenttime" then
      match toks with
      | [_] => .ok (some (str "datetime.datetime.now().strftime(\x27%H:%M:%S\x27)"))
      | _ => .error (.exc (str "currenttime function does not require any arguments"))
    else if func_name = str "currentdate" then
      match toks with
      | [_] => .ok (some (str "datetime.datetime.now().strftime(\x27%Y-%m-%d\x27)"))
      | _ => .error (.exc (str "currentdate function does not require any arguments"))
    else if func_name = str "currenttimestamp" then
      match toks with
      | [_] => .ok (some (str "str(datetime.datetime.now().timestamp())"))
      | _ => .error (.exc (str "currenttimestamp function does not require any arguments"))
    else if func_name = str "createtext" then
      match rest with
      | [] => .error (.exc (str "createtext function requires at least one argument (text literal)"))
      | _ => .ok (some (quoteD (joinSp rest)))
    else if func_name = str "createarray" then
      match rest with
      | [] => .error (.exc (str "createarray function requires at least one argument (array elements)"))
      | _ => .ok (some (str "[" ++ joinWith (str ", ") rest ++ str "]"))
    else if func_name = str "createdictionary" then
      if (toks.length - 1) % 4 ≠ 0 then
        .error (.dsl 0 [] (str "Syntax error in \x27createdictionary\x27: Incorrect number of arguments. Expected key-value pairs like \x27key <key> value <value> ...\x27"))
      else do
        let dict_pairs ← createdictLoop 1 rest
        .ok (some (str "\x7b" ++ joinWith (str ", ") dict_pairs ++ str "\x7d"))
    else
      .ok none
termination_by 3 * tokens.length
decreasing_by
  have hl := congrArg List.length h
  have h2 : toks.length = tokens.length := length_normalize_booleans tokens
  simp only [List.length_cons] at hl
  omega

/-- The value-segment compilation inside `createdictionary` (compiler.py
line 427): a segment whose first token is in `builtin_funcs` is recursively
compiled (a `None` result renders as the text `None`); any other segment
becomes a quoted text literal. -/
def cd_value_expr (value_tokens : List Str) : Except PyErr Str :=
  match value_tokens with
  | v0 :: vrest =>
    if builtin_funcs.contains v0 then
      (compile_builtin_expression (v0 :: vrest)).map optToPy
    else .ok (quoteD (joinSp (v0 :: vrest)))
  | [] => .ok (quoteD (joinSp ([] : List Str)))
termination_by 3 * value_tokens.length + 1
decreasing_by
  simp only [List.length_cons]
  omega

/-- The `while i < len(tokens)` pair loop of `createdictionary`
(compiler.py lines 409-435).  `rest` is `tokens[i:]` and `i` is carried only
for the position numbers inside error messages; `tokens[i+1]`/`tokens[i+2]`
are read unguarded, so a truncated pair raises `IndexError`. -/
def createdictLoop (i : Nat) (rest : List Str) : Except PyErr (List Str) :=
  match rest with
  | [] => .ok []
  | t :: rest1 =>
    if t ≠ str "key" then
      .error (.dsl 0 [] (str "Syntax error in \x27createdictionary\x27: Expected keyword \x27key\x27 at position " ++
        natToStr i ++ str ", but found \x27" ++ t ++
        str "\x27. Dictionary key-value pairs must start with \x27key\x27."))
    else do
      let key_token ← pyGet rest1 0
      let t2 ← pyGet rest1 1
      if t2 ≠ str "value" then
        .error (.dsl 0 [] (str "Syntax error in \x27createdictionary\x27: Expected keyword \x27value\x27 after key \x27" ++
          key_token ++ str "\x27 at position " ++ natToStr (i + 2) ++
          str ", but found \x27" ++ t2 ++ str "\x27."))
      else
        let after := rest1.drop 2
        let value_tokens := after.takeWhile (fun x => x ≠ str "key" && x ≠ str "value")
        if value_tokens.isEmpty then
          .error (.dsl 0 [] (str "Syntax error in \x27createdictionary\x27: Missing value after \x27value\x27 keyword for key \x27" ++
            key_token ++ str "\x27. Each \x27value\x27 keyword must be followed by a value expression."))
        else do
          let value_expr ← cd_value_expr value_tokens
          let entry := squote :: (key_token ++ [squote] ++ str ": " ++ value_expr)
          let restNext := after.drop value_tokens.length
          match restNext.head? with
          | some x =>
            if x = str "key" ∨ x = str "value" then do
              let more ← createdictLoop (i + 3 + value_tokens.length) restNext
              .ok (entry :: more)
            else
              -- unreachable in the source: takeWhile stopped at key/value
              .error (.dsl 0 [] (str "Syntax error in \x27createdictionary\x27: Unexpected token after value for key \x27" ++
                key_token ++ str "\x27 at position " ++
                natToStr (i + 3 + value_tokens.length) ++ str ": \x27" ++ x ++
                str "\x27. Expected \x27key\x27 or \x27value\x27 for next pair, or end of dictionary definition."))
          | none => .ok [entry]
termination_by 3 * rest.length + 2
decreasing_by
  all_goals
    have htw := takeWhile_length_le (fun x => x ≠ str "key" && x ≠ str "value") (rest1.drop 2)
    simp only [List.length_drop, List.length_cons] at *
    omega

end

/-- The mutable compilation state of `compile_language` (compiler.py lines
460-462): the accumulated output lines, the nesting-depth counter and the
randomization flag.  `indent` is an `Int` because the source decrements it
before checking for negativity. -/
structure CState where
  output : List Str
  indent : Int
  randomUsed : Bool
deriving DecidableEq

/-- The state at the start of a compilation. -/
def initState : CState := ⟨[], 0, false⟩

/-- `output_lines.append("    " * indent + s)`. -/
def emitSt (st : CState) (s : Str) : CState :=
  { st with output := st.output ++ [indentStr st.indent ++ s] }

/-- `original_line = line.rstrip("\n")` (compiler.py line 483). -/
def origOf (raw : Str) : Str := (raw.reverse.dropWhile (fun c => c = '\n')).reverse

/-- `line.split("#", 1)[0].rstrip()` followed by `.strip()`
(compiler.py lines 485-486). -/
def strippedOf (raw : Str) : Str := pyStrip (pyRstrip (raw.takeWhile (fun c => c ≠ '#')))

/-- The guard of the index/subscript-assignment branch (compiler.py
line 493): the line contains `[`, `]` and `=` and does not start with
`storage`.  This branch is tested before every other statement shape. -/
def bracketTrigger (stripped : Str) : Bool :=
  stripped.contains '[' && stripped.contains ']' && stripped.contains '=' &&
  !(str "storage").isPrefixOf stripped

/-- The guard of the plain-assignment branch (compiler.py line 504). -/
def plainAssignTrigger (stripped : Str) : Bool :=
  stripped.contains '=' && !(str "storage").isPrefixOf stripped &&
  !(str "if ").isPrefixOf stripped && !(str "while ").isPrefixOf stripped &&
  !(str "for ").isPrefixOf stripped && !(str "print ").isPrefixOf stripped

/-- The index/subscript-assignment branch body (compiler.py lines 494-502):
split at the first `=`; a right-hand side whose first token is `text` goes
through the builtin compiler, anything else only has its booleans
normalized. -/
def compile_bracket_assign (st : CState) (stripped : Str) : Except PyErr CState :=
  let p := splitOnCharFirst '=' stripped
  let lhs := pyStrip p.1
  let rhs_tokens := pyWords p.2
  do
    let rhs_expr ←
      match rhs_tokens with
      | r0 :: _ =>
        if r0 = str "text" then (compile_builtin_expression rhs_tokens).map optToPy
        else .ok (joinSp (normalize_booleans rhs_tokens))
      | [] => .ok (joinSp (normalize_booleans rhs_tokens))
    .ok (emitSt st (lhs ++ str " = " ++ rhs_expr))

/-- The plain-assignment branch body (compiler.py lines 507-512): booleans
normalized, nothing else rewritten. -/
def compile_plain_assign (st : CState) (stripped : Str) : Except PyErr CState :=
  let p := splitOnCharFirst '=' stripped
  .ok (emitSt st (pyStrip p.1 ++ str " = " ++ joinSp (normalize_booleans (pyWords p.2))))

/-- The conditional-open branch (compiler.py lines 525-545): emit at the
current depth, then increment it. -/
def compile_if (st : CState) (n : Nat) (orig stripped : Str) : Except PyErr CState :=
  let condition_line := pyRstrip (stripped.drop 3)
  let condition_line :=
    if condition_line.getLast? = some ':' then pyRstrip condition_line.dropLast
    else condition_line
  if condition_line.isEmpty then
    .error (.dsl n orig (str "Missing condition in if statement."))
  else if (str " is true").isSuffixOf condition_line then
    let condition_expr := pyStrip (condition_line.take (condition_line.length - 8))
    if condition_expr.isEmpty then
      .error (.dsl n orig (str "Empty condition before \x27is true\x27."))
    else
      .ok { emitSt st (str "if " ++ condition_expr ++ str ":") with indent := st.indent + 1 }
  else if (str " is false").isSuffixOf condition_line then
    let condition_expr := pyStrip (condition_line.take (condition_line.length - 9))
    if condition_expr.isEmpty then
      .error (.dsl n orig (str "Empty condition before \x27is false\x27."))
    else
      .ok { emitSt st (str "if not (" ++ condition_expr ++ str "):") with indent := st.indent + 1 }
  else
    .ok { emitSt st (str "if " ++ condition_line ++ str ":") with indent := st.indent + 1 }

/-- The while-loop branch (compiler.py lines 548-557). -/
def compile_while (st : CState) (n : Nat) (orig stripped : Str) : Except PyErr CState :=
  let loop_line := pyRstrip (stripped.drop 6)
  let loop_line :=
    if (str " do").isSuffixOf loop_line then pyRstrip (loop_line.take (loop_line.length - 3))
    else loop_line
  if loop_line.isEmpty then
    .error (.dsl n orig (str "Missing condition in while loop."))
  else
    .ok { emitSt st (str "while " ++ loop_line ++ str ":") with indent := st.indent + 1 }

/-- The counted-loop branch (compiler.py lines 560-571): exactly the
five-token shape `for <start> to <end> do`, always binding the fixed loop
variable `i`. -/
def compile_for (st : CState) (n : Nat) (orig stripped : Str) : Except PyErr CState :=
  match pyWords stripped with
  | [_, start_val, kwTo, end_val, kwDo] =>
    if kwTo ≠ str "to" ∨ kwDo ≠ str "do" then
      .error (.dsl n orig (str "Invalid for loop syntax. Expected: for <start> to <end> do"))
    else if start_val.isEmpty ∨ end_val.isEmpty then
      .error (.dsl n orig (str "Missing start or end value in for loop."))
    else
      .ok { emitSt st (str "for i in range(" ++ start_val ++ str ", " ++ end_val ++ str " + 1):")
            with indent := st.indent + 1 }
  | _ => .error (.dsl n orig (str "Invalid for loop syntax. Expected: for <start> to <end> do"))

/-- The output branch (compiler.py lines 574-604). -/
def compile_print (st : CState) (n : Nat) (orig stripped : Str) : Except PyErr CState :=
  let expr := pyStrip (stripped.drop 5)
  if expr.isEmpty then
    .error (.dsl n orig (str "Missing expression in print command."))
  else
    match pyWords expr with
    | [t0] =>
      if t0 = str "currenttime" ∨ t0 = str "currentdate" ∨ t0 = str "currenttimestamp" then do
        let r ← compile_builtin_expression [t0]
        .ok (emitSt st (str "print(" ++ optToPy r ++ str ")"))
      else
        .ok (emitSt st (str "print(" ++ expr ++ str ")"))
    | t0 :: trest =>
      if t0 = str "text" then
        let literal := pyStrip (joinSp trest)
        if (literal.head? = some dquote ∧ literal.getLast? = some dquote) ∨
           (literal.head? = some squote ∧ literal.getLast? = some squote) then
          .ok (emitSt st (str "print(" ++ literal ++ str ")"))
        else
          .ok (emitSt st (str "print(" ++ quoteD literal ++ str ")"))
      else if t0 = str "storage" then
        let var_name := joinSp trest
        if var_name.isEmpty then
          .error (.dsl n orig (str "Missing variable name in print command."))
        else
          .ok (emitSt st (str "print(" ++ var_name ++ str ")"))
      else if t0 = str "random" then do
        let e ← compile_random_expression (t0 :: trest)
        .ok { emitSt st (str "print(" ++ e ++ str ")") with randomUsed := true }
      else if all_builtin_funcs.contains t0 then do
        let r ← compile_builtin_expression (t0 :: trest)
        .ok (emitSt st (str "print(" ++ optToPy r ++ str ")"))
      else
        .ok (emitSt st (str "print(" ++ expr ++ str ")"))
    | [] => .error (.exc idxErrMsg)

/-- The arithmetic-operator tokens of the storage branch
(compiler.py line 624). -/
def arithmetic_operators : List Str :=
  [str "+", str "-", str "*", str "/", str "%"]

/-- Value-expression compilation inside the storage branch (compiler.py
lines 624-650), before the numeric coercion.  Returns the compiled
expression together with whether the random subcompiler ran (the
`random_used = True` assignment of the source). -/
def storage_value_expr (n : Nat) (orig : Str) (typ : Str)
    (expression_tokens : List Str) : Except PyErr (Str × Bool) :=
  if expression_tokens.any (fun t => arithmetic_operators.contains t) then
    .ok (joinSp (normalize_booleans expression_tokens), false)
  else
    match expression_tokens with
    | e0 :: erest =>
      if e0 = str "random" then do
        let v ← compile_random_expression (e0 :: erest)
        .ok (v, true)
      else if e0 = str "text" then
        .ok (quoteD (pyStrip (joinSp erest)), false)
      else if all_builtin_funcs.contains e0 then do
        let r ← compile_builtin_expression (e0 :: erest)
        .ok (optToPy r, false)
      else
        let value_expr := joinSp (normalize_booleans (e0 :: erest))
        if typ = str "text" ∧
           ¬(value_expr.head? = some dquote ∨ value_expr.head? = some squote) then
          .ok (quoteD value_expr, false)
        else if typ = str "boolean" then
          if toLowerStr value_expr = str "true" then .ok (str "True", false)
          else if toLowerStr value_expr = str "false" then .ok (str "False", false)
          else
            .error (.dsl n orig (str "Invalid boolean value: \x27" ++ value_expr ++
              str "\x27. For boolean storage, use \x27true\x27 or \x27false\x27."))
        else .ok (value_expr, false)
    | [] => .error (.exc idxErrMsg)

/-- The storage-declaration branch (compiler.py lines 608-657).  After the
value expression compiles, a `float` declaration is wrapped in `float(...)`
and a `number`/`integer` declaration in `int(...)`. -/
def compile_storage (st : CState) (n : Nat) (orig stripped : Str) : Except PyErr CState :=
  let parts := pyWords (pyStrip (stripped.drop 7))
  match parts with
  | p0 :: p1 :: p2 :: exprToks =>
    if !allowed_types.contains (toLowerStr p0) then
      .error (.dsl n orig (str "Invalid storage type \x27" ++ p0 ++
        str "\x27. Allowed types are: " ++ joinWith (str ", ") allowed_types ++
        str ". Please use one of these types to declare storage."))
    else
      let typ := toLowerStr p0
      let var_name := p1
      if !pyIsIdentifier var_name then
        .error (.dsl n orig (str "Invalid variable name \x27" ++ var_name ++
          str "\x27. Variable names must be valid Python identifiers (start with a letter or underscore, followed by letters, numbers, or underscores)."))
      else if p2 ≠ str "=" then
        .error (.dsl n orig (str "Syntax error in \x27storage\x27 command: Missing \x27=\x27.  The correct format is \x27storage <type> <variable> = <value>\x27. Ensure there\x27s an equals sign after the variable name."))
      else if exprToks.isEmpty then
        .error (.dsl n orig (str "Missing value expression after \x27=\x27 in \x27storage\x27 command. You need to assign a value to the variable. For example: \x27storage number myVar = 10\x27."))
      else do
        let ve ← storage_value_expr n orig typ exprToks
        let value_expr :=
          if typ = str "float" then str "float(" ++ ve.1 ++ str ")"
          else if typ = str "number" ∨ typ = str "integer" then str "int(" ++ ve.1 ++ str ")"
          else ve.1
        .ok { st with
              output := st.output ++ [indentStr st.indent ++ (var_name ++ str " = " ++ value_expr)],
              randomUsed := st.randomUsed || ve.2 }
  | _ =>
    .error (.dsl n orig (str "Incomplete \x27storage\x27 command. Expected: \x27storage <type> <variable> = <value>\x27"))

/-- `"    " * indent + expr_compiled` for a builtin result: concatenating
`None` onto a string raises `TypeError` in Python. -/
def appendPyConcat (st : CState) (r : Option Str) : Except PyErr CState :=
  match r with
  | none => .error (.exc (str "can only concatenate str (not \x22NoneType\x22) to str"))
  | some s => .ok { st with output := st.output ++ [indentStr st.indent ++ s] }

/-- The final dispatcher for bare builtin calls and the two-word shorthand
commands (compiler.py lines 660-693). -/
def compile_dispatch (st : CState) (n : Nat) (orig stripped : Str) : Except PyErr CState :=
  match pyWords stripped with
  | [] => .ok st
  | first :: trest =>
    let second : Option Str := trest.head?
    if (second.map (fun s2 => list_array_funcs.contains s2)).getD false then do
      let r ← compile_builtin_expression (second.getD [] :: str "array" :: first :: trest.drop 1)
      appendPyConcat st r
    else if list_array_funcs.contains first then do
      let r ← compile_builtin_expression (first :: trest)
      appendPyConcat st r
    else if all_builtin_funcs.contains first then do
      let r ← compile_builtin_expression (first :: trest)
      appendPyConcat st r
    else if first = str "clear" then
      if second = some (str "screen") then do
        let r ← compile_builtin_expression [str "clearscreen"]
        appendPyConcat st r
      else
        .error (.dsl n orig (str "Unknown command: \x27" ++ stripped ++
          str "\x27. Did you mean \x27clear screen\x27?"))
    else if first = str "exit" then
      if second = some (str "program") then do
        let r ← compile_builtin_expression [str "exitprogram"]
        appendPyConcat st r
      else
        .error (.dsl n orig (str "Unknown command: \x27" ++ stripped ++
          str "\x27. Did you mean \x27exit program\x27?"))
    else
      .error (.dsl n orig (str "Unknown command: \x27" ++ stripped ++ str "\x27"))

/-- The statement classifier (compiler.py lines 493-693): one pass of
branch tests in the fixed source order.  Every branch of the source ends in
`continue`, so the sequence of `if` statements behaves as a single chain. -/
def processLineCore (st : CState) (n : Nat) (orig stripped : Str) : Except PyErr CState :=
  if bracketTrigger stripped then compile_bracket_assign st stripped
  else if plainAssignTrigger stripped then compile_plain_assign st stripped
  else if toLowerStr stripped = str "end program" then .ok (emitSt st (str "sys.exit()"))
  else if toLowerStr stripped = str "end" then
    if st.indent - 1 < 0 then .error (.dsl n orig (str "Unmatched \x27end\x27 statement"))
    else .ok { st with indent := st.indent - 1 }
  else if (str "if ").isPrefixOf stripped then compile_if st n orig stripped
  else if (str "while ").isPrefixOf stripped then compile_while st n orig stripped
  else if (str "for ").isPrefixOf stripped then compile_for st n orig stripped
  else if (str "print").isPrefixOf stripped then compile_print st n orig stripped
  else if (str "storage").isPrefixOf stripped then compile_storage st n orig stripped
  else compile_dispatch st n orig stripped

/-- One iteration of the per-line loop (compiler.py lines 481-698):
normalize the line, skip it if blank, otherwise classify it; the
`except Exception` clause re-wraps any non-`DSLCompilerError` failure with
the current line number and raw text, while a `DSLCompilerError` passes
through unchanged. -/
def processLine (st : CState) (n : Nat) (raw : Str) : Except PyErr CState :=
  let orig := origOf raw
  let stripped := strippedOf raw
  if stripped.isEmpty then .ok st
  else
    match processLineCore st n orig stripped with
    | .error (.exc m) => .error (.dsl n orig m)
    | r => r

/-- The per-line loop over all source lines, threading the line number. -/
def goLines : List Str → Nat → CState → Except PyErr CState
  | [], _, st => .ok st
  | l :: ls, n, st =>
    match processLine st n l with
    | .error e => .error e
    | .ok st2 => goLines ls (n + 1) st2

/-- The fixed header lines always emitted (compiler.py line 703). -/
def coreHeaders : List Str :=
  [str "import math", str "import sys", str "import datetime", str "import os"]

/-- `compile_language` (compiler.py line 455): run the per-line loop, fail
with the unclosed-block diagnostic when the final depth is nonzero,
otherwise prepend the headers (plus the randomization import when used) and
join everything with newlines. -/
def compile_language (source_code : Str) : Except PyErr Str :=
  let lines := splitlinesPy source_code
  match goLines lines 1 initState with
  | .error e => .error e
  | .ok st =>
    if st.indent ≠ 0 then
      .error (.dsl lines.length []
        (str "Unclosed block statements detected. Some blocks are not properly terminated with \x27end\x27."))
    else
      .ok (joinWith (str "\n")
        ((coreHeaders ++ (if st.randomUsed then [str "import random"] else [])) ++ st.output))

/-- Whether the print branch compiles a random expression: the first token
after `print` is `random` and the random subcompiler accepts the tokens.
Observer of `compile_print` used to state the `random_used` contract. -/
def printUsesRandom (stripped : Str) : Bool :=
  match pyWords (pyStrip (stripped.drop 5)) with
  | [_] => false
  | t0 :: trest => t0 = str "random" && (compile_random_expression (t0 :: trest)).isOk
  | [] => false

/-- Whether a storage value expression takes the random path of
`storage_value_expr`. -/
def svalueUsesRandom (expression_tokens : List Str) : Bool :=
  if expression_tokens.any (fun t => arithmetic_operators.contains t) then false
  else
    match expression_tokens with
    | e0 :: _ =>
      e0 = str "random" && (compile_random_expression expression_tokens).isOk
    | [] => false

/-- Whether the storage branch compiles a random expression. -/
def storageUsesRandom (stripped : Str) : Bool :=
  match pyWords (pyStrip (stripped.drop 7)) with
  | _ :: _ :: _ :: exprToks => svalueUsesRandom exprToks
  | _ => false

/-- Whether processing this line (successfully) compiles a random
expression: only the print and storage branches of the classifier can run
the random subcompiler. -/
def lineUsesRandom (raw : Str) : Bool :=
  let stripped := strippedOf raw
  if stripped.isEmpty then false
  else if bracketTrigger stripped then false
  else if plainAssignTrigger stripped then false
  else if toLowerStr stripped = str "end program" then false
  else if toLowerStr stripped = str "end" then false
  else if (str "if ").isPrefixOf stripped then false
  else if (str "while ").isPrefixOf stripped then false
  else if (str "for ").isPrefixOf stripped then false
  else if (str "print").isPrefixOf stripped then printUsesRandom stripped
  else if (str "storage").isPrefixOf stripped then storageUsesRandom stripped
  else false

/-- Inversion for a successful `Except` bind. -/
theorem except_bind_ok {ε α β : Type} (x : Except ε α) (f : α → Except ε β) (b : β) :
    (x >>= f) = .ok b ↔ ∃ a, x = .ok a ∧ f a = .ok b := by
  cases x <;> simp [Bind.bind, Except.bind]

/-- A successful `processLine` is either a skipped blank line or a
successful run of the classifier. -/
theorem processLine_ok_core (st : CState) (n : Nat) (raw : Str) (st' : CState)
    (h : processLine st n raw = .ok st') :
    ((strippedOf raw).isEmpty = true ∧ st' = st) ∨
    ((strippedOf raw).isEmpty = false ∧
      processLineCore st n (origOf raw) (strippedOf raw) = .ok st') := by
  unfold processLine at h
  by_cases he : (strippedOf raw).isEmpty
  · simp only [he, if_true] at h
    exact Or.inl ⟨he, (Except.ok.inj h).symm⟩
  · simp only [he, if_false] at h
    refine Or.inr ⟨by simp [he], ?_⟩
    rcases hc : processLineCore st n (origOf raw) (strippedOf raw) with e | st2
    · rcases e with e | m <;> simp [hc] at h
    · simp [hc] at h
      simp [h]

/-- Every error escaping `processLine` is a `DSLCompilerError`. -/
theorem processLine_error_dsl (st : CState) (n : Nat) (raw : Str) (e : PyErr)
    (h : processLine st n raw = .error e) :
    ∃ ln tx msg, e = .dsl ln tx msg := by
  unfold processLine at h
  by_cases he : (strippedOf raw).isEmpty
  · simp [he] at h
  · simp only [he, if_false] at h
    rcases hc : processLineCore st n (origOf raw) (strippedOf raw) with e2 | st2
    · rcases e2 with ⟨ln, tx, msg⟩ | m
      · simp [hc] at h
        exact ⟨ln, tx, msg, h.symm⟩
      · simp [hc] at h
        exact ⟨n, origOf raw, m, h.symm⟩
    · simp [hc] at h

/-- Effect of the subscript-assignment branch: exactly one line appended at
the current depth, depth and random flag untouched. -/
theorem compile_bracket_assign_ok (st : CState) (s : Str) (st' : CState)
    (h : compile_bracket_assign st s = .ok st') :
    (∃ body, st'.output = st.output ++ [indentStr st.indent ++ body]) ∧
    st'.indent = st.indent ∧ st'.randomUsed = st.randomUsed := by
  unfold compile_bracket_assign at h
  dsimp only [] at h
  repeat' split at h
  all_goals
    rw [except_bind_ok] at h
    obtain ⟨a, _, hf⟩ := h
    replace hf := Except.ok.inj hf
    subst hf
    exact ⟨⟨_, rfl⟩, rfl, rfl⟩

/-- Effect of the plain-assignment branch. -/
theorem compile_plain_assign_ok (st : CState) (s : Str) (st' : CState)
    (h : compile_plain_assign st s = .ok st') :
    (∃ body, st'.output = st.output ++ [indentStr st.indent ++ body]) ∧
    st'.indent = st.indent ∧ st'.randomUsed = st.randomUsed := by
  unfold compile_plain_assign at h
  injection h with h
  subst h
  exact ⟨⟨_, rfl⟩, rfl, rfl⟩

/-- Effect of the conditional-open branch: one line appended at the
pre-increment depth, depth incremented by one. -/
theorem compile_if_ok (st : CState) (n : Nat) (orig s : Str) (st' : CState)
    (h : compile_if st n orig s = .ok st') :
    (∃ body, st'.output = st.output ++ [indentStr st.indent ++ body]) ∧
    st'.indent = st.indent + 1 ∧ st'.randomUsed = st.randomUsed := by
  unfold compile_if at h
  dsimp only [] at h
  repeat' split at h
  all_goals try (exact Except.noConfusion h)
  all_goals (replace h := Except.ok.inj h; subst h)
  all_goals exact ⟨⟨_, rfl⟩, rfl, rfl⟩

/-- Effect of the while-loop branch. -/
theorem compile_while_ok (st : CState) (n : Nat) (orig s : Str) (st' : CState)
    (h : compile_while st n orig s = .ok st') :
    (∃ body, st'.output = st.output ++ [indentStr st.indent ++ body]) ∧
    st'.indent = st.indent + 1 ∧ st'.randomUsed = st.randomUsed := by
  unfold compile_while at h
  dsimp only [] at h
  repeat' split at h
  all_goals try (exact Except.noConfusion h)
  all_goals (replace h := Except.ok.inj h; subst h)
  all_goals exact ⟨⟨_, rfl⟩, rfl, rfl⟩

/-- Effect of the counted-loop branch. -/
theorem compile_for_ok (st : CState) (n : Nat) (orig s : Str) (st' : CState)
    (h : compile_for st n orig s = .ok st') :
    (∃ body, st'.output = st.output ++ [indentStr st.indent ++ body]) ∧
    st'.indent = st.indent + 1 ∧ st'.randomUsed = st.randomUsed := by
  unfold compile_for at h
  dsimp only [] at h
  repeat' split at h
  all_goals try (exact Except.noConfusion h)
  all_goals (replace h := Except.ok.inj h; subst h)
  all_goals exact ⟨⟨_, rfl⟩, rfl, rfl⟩

/-- Effect of the output branch: one `print(...)` line appended at the
current depth; the random flag is set exactly when the print compiles a
random expression. -/
theorem compile_print_ok (st : CState) (n : Nat) (orig s : Str) (st' : CState)
    (h : compile_print st n orig s = .ok st') :
    (∃ body, st'.output = st.output ++ [indentStr st.indent ++ body]) ∧
    st'.indent = st.indent ∧
    st'.randomUsed = (st.randomUsed || printUsesRandom s) := by
  unfold compile_print at h
  unfold printUsesRandom
  dsimp only [] at h
  repeat' split at h
  all_goals try (exact Except.noConfusion h)
  all_goals try (rw [except_bind_ok] at h; obtain ⟨a, ha, h⟩ := h)
  all_goals (replace h := Except.ok.inj h; subst h)
  all_goals simp_all +decide [emitSt, Except.isOk, Except.toBool, str]

/-- The flag returned by `storage_value_expr` is exactly the
`svalueUsesRandom` observer. -/
theorem storage_value_expr_flag (n : Nat) (orig typ : Str)
    (toks : List Str) (e : Str) (r : Bool)
    (h : storage_value_expr n orig typ toks = .ok (e, r)) :
    r = svalueUsesRandom toks := by
  unfold storage_value_expr at h
  unfold svalueUsesRandom
  dsimp only [] at h
  repeat' split at h
  all_goals try (exact Except.noConfusion h)
  all_goals try (rw [except_bind_ok] at h; obtain ⟨a, ha, h⟩ := h)
  all_goals (replace h := Except.ok.inj h)
  all_goals (injection h with h1 h2; subst h2)
  all_goals simp_all +decide [Except.isOk, Except.toBool, str]

/-- Effect of the storage branch: one binding line appended at the current
depth; the random flag is set exactly when the value took the random path. -/
theorem compile_storage_ok (st : CState) (n : Nat) (orig s : Str) (st' : CState)
    (h : compile_storage st n orig s = .ok st') :
    (∃ body, st'.output = st.output ++ [indentStr st.indent ++ body]) ∧
    st'.indent = st.indent ∧
    st'.randomUsed = (st.randomUsed || storageUsesRandom s) := by
  unfold compile_storage at h
  unfold storageUsesRandom
  dsimp only [] at h
  repeat' split at h
  all_goals try (exact Except.noConfusion h)
  all_goals
    rw [except_bind_ok] at h
    obtain ⟨⟨e, r⟩, ha, h⟩ := h
    replace h := Except.ok.inj h
    subst h
    have hr := storage_value_expr_flag _ _ _ _ _ _ ha
    subst hr
    simp_all

/-- A successful `"    " * indent + r` concatenation appends one line. -/
theorem appendPyConcat_ok (st : CState) (r : Option Str) (st' : CState)
    (h : appendPyConcat st r = .ok st') :
    (∃ body, st'.output = st.output ++ [indentStr st.indent ++ body]) ∧
    st'.indent = st.indent ∧ st'.randomUsed = st.randomUsed := by
  unfold appendPyConcat at h
  rcases r with _ | s
  · exact Except.noConfusion h
  · replace h := Except.ok.inj h
    subst h
    exact ⟨⟨_, rfl⟩, rfl, rfl⟩

/-- Effect of the bare-call dispatcher: at most one line appended at the
current depth, depth and random flag untouched. -/
theorem compile_dispatch_ok (st : CState) (n : Nat) (orig s : Str) (st' : CState)
    (h : compile_dispatch st n orig s = .ok st') :
    (st'.output = st.output ∨
      ∃ body, st'.output = st.output ++ [indentStr st.indent ++ body]) ∧
    st'.indent = st.indent ∧ st'.randomUsed = st.randomUsed := by
  unfold compile_dispatch at h
  dsimp only [] at h
  repeat' split at h
  all_goals try (exact Except.noConfusion h)
  all_goals try (replace h := Except.ok.inj h; subst h; exact ⟨Or.inl rfl, rfl, rfl⟩)
  all_goals
    rw [except_bind_ok] at h
    obtain ⟨a, ha, h⟩ := h
    obtain ⟨⟨b, hb⟩, hi, hr⟩ := appendPyConcat_ok _ _ _ h
    exact ⟨Or.inr ⟨b, hb⟩, hi, hr⟩

/-- The random flag after a successful line equals the old flag or-ed with
the `lineUsesRandom` observer of that line. -/
theorem processLine_flag (st : CState) (n : Nat) (raw : Str) (st' : CState)
    (h : processLine st n raw = .ok st') :
    st'.randomUsed = (st.randomUsed || lineUsesRandom raw) := by
  unfold lineUsesRandom
  dsimp only []
  rcases processLine_ok_core st n raw st' h with ⟨he, rfl⟩ | ⟨he, hc⟩
  · simp [he]
  · rw [if_neg (by simp [he])]
    unfold processLineCore at hc
    by_cases c1 : bracketTrigger (strippedOf raw) = true
    · rw [if_pos c1] at hc; rw [if_pos c1]
      obtain ⟨-, -, hr⟩ := compile_bracket_assign_ok _ _ _ hc
      simp [hr]
    · rw [if_neg c1] at hc; rw [if_neg c1]
      by_cases c2 : plainAssignTrigger (strippedOf raw) = true
      · rw [if_pos c2] at hc; rw [if_pos c2]
        obtain ⟨-, -, hr⟩ := compile_plain_assign_ok _ _ _ hc
        simp [hr]
      · rw [if_neg c2] at hc; rw [if_neg c2]
        by_cases c3 : toLowerStr (strippedOf raw) = str "end program"
        · rw [if_pos c3] at hc; rw [if_pos c3]
          replace hc := Except.ok.inj hc; subst hc
          simp [emitSt]
        · rw [if_neg c3] at hc; rw [if_neg c3]
          by_cases c4 : toLowerStr (strippedOf raw) = str "end"
          · rw [if_pos c4] at hc; rw [if_pos c4]
            split at hc
            · exact Except.noConfusion hc
            · replace hc := Except.ok.inj hc; subst hc; simp
          · rw [if_neg c4] at hc; rw [if_neg c4]
            by_cases c5 : (str "if ").isPrefixOf (strippedOf raw) = true
            · rw [if_pos c5] at hc; rw [if_pos c5]
              obtain ⟨-, -, hr⟩ := compile_if_ok _ _ _ _ _ hc
              simp [hr]
            · rw [if_neg c5] at hc; rw [if_neg c5]
              by_cases c6 : (str "while ").isPrefixOf (strippedOf raw) = true
              · rw [if_pos c6] at hc; rw [if_pos c6]
                obtain ⟨-, -, hr⟩ := compile_while_ok _ _ _ _ _ hc
                simp [hr]
              · rw [if_neg c6] at hc; rw [if_neg c6]
                by_cases c7 : (str "for ").isPrefixOf (strippedOf raw) = true
                · rw [if_pos c7] at hc; rw [if_pos c7]
                  obtain ⟨-, -, hr⟩ := compile_for_ok _ _ _ _ _ hc
                  simp [hr]
                · rw [if_neg c7] at hc; rw [if_neg c7]
                  by_cases c8 : (str "print").isPrefixOf (strippedOf raw) = true
                  · rw [if_pos c8] at hc; rw [if_pos c8]
                    obtain ⟨-, -, hr⟩ := compile_print_ok _ _ _ _ _ hc
                    exact hr
                  · rw [if_neg c8] at hc; rw [if_neg c8]
                    by_cases c9 : (str "storage").isPrefixOf (strippedOf raw) = true
                    · rw [if_pos c9] at hc; rw [if_pos c9]
                      obtain ⟨-, -, hr⟩ := compile_storage_ok _ _ _ _ _ hc
                      exact hr
                    · rw [if_neg c9] at hc; rw [if_neg c9]
                      obtain ⟨-, -, hr⟩ := compile_dispatch_ok _ _ _ _ _ hc
                      simp [hr]

/-- The final random flag of the line loop: the initial flag or-ed with
whether any processed line compiled a random expression. -/
theorem goLines_ok_flag : ∀ (lines : List Str) (n : Nat) (st st' : CState),
    goLines lines n st = .ok st' →
    st'.randomUsed = (st.randomUsed || lines.any lineUsesRandom)
  | [], n, st, st', h => by
      replace h := Except.ok.inj h
      subst h
      simp
  | l :: ls, n, st, st', h => by
      unfold goLines at h
      rcases hp : processLine st n l with e | st2 <;> rw [hp] at h
      · exact Except.noConfusion h
      · have h2 := goLines_ok_flag ls (n + 1) st2 st' h
        rw [h2, processLine_flag _ _ _ _ hp]
        simp [Bool.or_assoc]

/-- Every error escaping the line loop is a `DSLCompilerError`. -/
theorem goLines_error_dsl : ∀ (lines : List Str) (n : Nat) (st : CState) (e : PyErr),
    goLines lines n st = .error e → ∃ ln tx msg, e = .dsl ln tx msg
  | [], _, _, _, h => Except.noConfusion h
  | l :: ls, n, st, e, h => by
      unfold goLines at h
      rcases hp : processLine st n l with e2 | st2 <;> rw [hp] at h
      · replace h := Except.error.inj h
        subst h
        exact processLine_error_dsl _ _ _ _ hp
      · exact goLines_error_dsl ls (n + 1) st2 e h

/-- Every error escaping `compile_language` is a `DSLCompilerError`. -/
theorem compile_language_error_dsl (source : Str) (e : PyErr)
    (h : compile_language source = .error e) :
    ∃ ln tx msg, e = .dsl ln tx msg := by
  unfold compile_language at h
  dsimp only [] at h
  rcases hg : goLines (splitlinesPy source) 1 initState with e2 | st <;> rw [hg] at h
  · replace h := Except.error.inj h
    subst h
    exact goLines_error_dsl _ _ _ _ hg
  · dsimp only [] at h
    by_cases hi : st.indent ≠ 0
    · rw [if_pos hi] at h
      exact ⟨_, _, _, (Except.error.inj h).symm⟩
    · rw [if_neg hi] at h
      exact Except.noConfusion h

/-- C1: the claim fails on the code.  `length` is in the registered
`builtin_funcs` set, yet `compile_builtin_expression` has no branch for it
and falls off the end of the chain returning Python `None`; an unknown name
such as `foobar` likewise returns `None` instead of raising any
`UnknownFunction` error.  Downstream, `print length x` emits the line
`print(None)` and the bare call `length x` aborts with the wrapped
`TypeError` from concatenating `None` onto the indentation string. -/
theorem builtin_fallthrough_returns_none :
    compile_builtin_expression [str "length", str "x"] = .ok none ∧
    compile_builtin_expression [str "foobar"] = .ok none ∧
    compile_language (str "print length x") =
      .ok (str "import math\nimport sys\nimport datetime\nimport os\nprint(None)") ∧
    compile_language (str "length x") =
      .error (.dsl 1 (str "length x")
        (str "can only concatenate str (not \x22NoneType\x22) to str")) := by
  have h1 : compile_builtin_expression [str "length", str "x"] = .ok none := by
    simp +decide [compile_builtin_expression, normalize_booleans, toLowerStr, str,
      math_funcs_mapping, List.lookup]
  have h2 : compile_builtin_expression [str "foobar"] = .ok none := by
    simp +decide [compile_builtin_expression, normalize_booleans, toLowerStr, str,
      math_funcs_mapping, List.lookup]
  refine ⟨h1, h2, ?_, ?_⟩
  · have h1b := h1
    simp only [str, String.toList] at h1b
    simp +decide [compile_language, splitlinesPy, splitOnChar, pySplit, goLines, processLine,
      processLineCore, origOf, strippedOf, pyStrip, pyRstrip, pyLstrip, bracketTrigger,
      plainAssignTrigger, toLowerStr, compile_print, pyWords, str, joinSp, joinWith,
      List.intercalate, quoteD, emitSt, indentStr, all_builtin_funcs, builtin_funcs,
      list_array_funcs, dict_funcs, bool_funcs, math_funcs, file_funcs, screen_funcs,
      type_funcs, aggregate_funcs, create_funcs, optToPy, coreHeaders, initState, h1b]
  · have h1b := h1
    simp only [str, String.toList] at h1b
    simp +decide [compile_language, splitlinesPy, splitOnChar, pySplit, goLines, processLine,
      processLineCore, origOf, strippedOf, pyStrip, pyRstrip, pyLstrip, bracketTrigger,
      plainAssignTrigger, toLowerStr, compile_dispatch, appendPyConcat, pyWords, str, joinSp,
      joinWith, List.intercalate, quoteD, emitSt, indentStr, all_builtin_funcs, builtin_funcs,
      list_array_funcs, dict_funcs, bool_funcs, math_funcs, file_funcs, screen_funcs,
      type_funcs, aggregate_funcs, create_funcs, optToPy, coreHeaders, initState, h1b]

/-- C3 counterexample: a line whose first token is the print keyword but
which contains `[`, `]` and `=` is captured by the subscript-assignment
branch (tested first), not compiled as an output statement: the classifier
emits the mangled assignment `print x[0] = = 1`. -/
theorem print_bracket_line_compiles_as_assignment :
    compile_language (str "print x[0] == 1") =
      .ok (str "import math\nimport sys\nimport datetime\nimport os\nprint x[0] = = 1") ∧
    processLineCore initState 1 (str "print x[0] == 1") (str "print x[0] == 1") =
      compile_bracket_assign initState (str "print x[0] == 1") := by
  exact ⟨by decide, by decide⟩

/-- C4 counterexample: a `createdictionary` validation failure constructs
its `DSLCompilerError` with line number `0` and empty source text, and the
per-line boundary propagates it unchanged, so the diagnostic for line 1 of
`print createdictionary key a` carries neither that line's number nor its
raw text. -/
theorem createdict_error_has_line_zero :
    compile_language (str "print createdictionary key a") =
      .error (.dsl 0 []
        (str "Syntax error in \x27createdictionary\x27: Incorrect number of arguments. Expected key-value pairs like \x27key <key> value <value> ...\x27")) := by
  have h1 : compile_builtin_expression [str "createdictionary", str "key", str "a"] =
      .error (.dsl 0 []
        (str "Syntax error in \x27createdictionary\x27: Incorrect number of arguments. Expected key-value pairs like \x27key <key> value <value> ...\x27")) := by
    simp +decide [compile_builtin_expression, normalize_booleans, toLowerStr, str,
      math_funcs_mapping, List.lookup]
  simp only [str, String.toList] at h1
  simp +decide [compile_language, splitlinesPy, splitOnChar, pySplit, goLines, processLine,
    processLineCore, origOf, strippedOf, pyStrip, pyRstrip, pyLstrip, bracketTrigger,
    plainAssignTrigger, toLowerStr, compile_print, pyWords, str, joinSp, joinWith,
    List.intercalate, quoteD, emitSt, indentStr, all_builtin_funcs, builtin_funcs,
    list_array_funcs, dict_funcs, bool_funcs, math_funcs, file_funcs, screen_funcs,
    type_funcs, aggregate_funcs, create_funcs, optToPy, coreHeaders, initState, h1]

/-- C8 counterexample: a plain assignment whose value begins with the
text-literal keyword is emitted verbatim - the literal is not quoted. -/
theorem plain_assign_text_not_quoted :
    compile_language (str "x = text hello") =
      .ok (str "import math\nimport sys\nimport datetime\nimport os\nx = text hello") ∧
    compile_language (str "x = text hello") ≠
      .ok (str "import math\nimport sys\nimport datetime\nimport os\nx = \x22hello\x22") := by
  exact ⟨by decide, by decide⟩

/-- A line without `=` cannot trigger the subscript-assignment branch. -/
theorem bracketTrigger_false_of_no_eq (s : Str) (h : s.contains '=' = false) :
    bracketTrigger s = false := by
  have h2 : ¬('=' ∈ s) := by simpa using h
  simp [bracketTrigger, h2]

/-- A line without `=` cannot trigger the plain-assignment branch. -/
theorem plainAssignTrigger_false_of_no_eq (s : Str) (h : s.contains '=' = false) :
    plainAssignTrigger s = false := by
  have h2 : ¬('=' ∈ s) := by simpa using h
  simp [plainAssignTrigger, h2]

/-- C2: the nesting-depth counter obeys the block state machine.  Every
successfully compiled block-opening line (`if `, `while `, `for `) leaves
the depth one greater than before; a terminator line (whose stripped text
lowercases to `end`) decrements it when the depth is positive and fails
with the `Unmatched \x27end\x27 statement` diagnostic when the decrement
would go below zero; and a compilation whose line loop finishes with
positive depth fails with the unclosed-block diagnostic instead of closing
the blocks. -/
theorem block_depth_state_machine :
    (∀ (st : CState) (n : Nat) (line : Str) (st' : CState) (cs : Str),
      (strippedOf line = 'i' :: 'f' :: ' ' :: cs ∨
       strippedOf line = 'w' :: 'h' :: 'i' :: 'l' :: 'e' :: ' ' :: cs ∨
       strippedOf line = 'f' :: 'o' :: 'r' :: ' ' :: cs) →
      bracketTrigger (strippedOf line) = false →
      processLine st n line = .ok st' →
      st'.indent = st.indent + 1) ∧
    (∀ (st : CState) (n : Nat) (line : Str),
      toLowerStr (strippedOf line) = str "end" →
      (0 ≤ st.indent - 1 →
        processLine st n line = .ok { st with indent := st.indent - 1 }) ∧
      (st.indent - 1 < 0 →
        processLine st n line =
          .error (.dsl n (origOf line) (str "Unmatched \x27end\x27 statement")))) ∧
    (∀ (source : Str) (st : CState),
      goLines (splitlinesPy source) 1 initState = .ok st →
      0 < st.indent →
      compile_language source =
        .error (.dsl (splitlinesPy source).length []
          (str "Unclosed block statements detected. Some blocks are not properly terminated with \x27end\x27."))) := by
  refine ⟨?_, ?_, ?_⟩
  · intro st n line st' cs hopen hb h
    rcases processLine_ok_core st n line st' h with ⟨he, rfl⟩ | ⟨he, hc⟩
    · rcases hopen with h1 | h1 | h1 <;> rw [h1] at he <;> simp at he
    · unfold processLineCore at hc
      rcases hopen with h1 | h1 | h1
      · rw [h1] at hc hb
        rw [if_neg (by simp [hb]),
            if_neg (by simp +decide [plainAssignTrigger, str, List.isPrefixOf]),
            if_neg (by simp +decide [toLowerStr, str]),
            if_neg (by simp +decide [toLowerStr, str]),
            if_pos (by simp +decide [str, List.isPrefixOf])] at hc
        rw [← h1] at hc
        exact (compile_if_ok _ _ _ _ _ hc).2.1
      · rw [h1] at hc hb
        rw [if_neg (by simp [hb]),
            if_neg (by simp +decide [plainAssignTrigger, str, List.isPrefixOf]),
            if_neg (by simp +decide [toLowerStr, str]),
            if_neg (by simp +decide [toLowerStr, str]),
            if_neg (by simp +decide [str, List.isPrefixOf]),
            if_pos (by simp +decide [str, List.isPrefixOf])] at hc
        rw [← h1] at hc
        exact (compile_while_ok _ _ _ _ _ hc).2.1
      · rw [h1] at hc hb
        rw [if_neg (by simp [hb]),
            if_neg (by simp +decide [plainAssignTrigger, str, List.isPrefixOf]),
            if_neg (by simp +decide [toLowerStr, str]),
            if_neg (by simp +decide [toLowerStr, str]),
            if_neg (by simp +decide [str, List.isPrefixOf]),
            if_neg (by simp +decide [str, List.isPrefixOf]),
            if_pos (by simp +decide [str, List.isPrefixOf])] at hc
        rw [← h1] at hc
        exact (compile_for_ok _ _ _ _ _ hc).2.1
  · intro st n line hlow
    have hlow0 := hlow
    have hlen : (strippedOf line).length = 3 := by
      have h := congrArg List.length hlow
      simpa [toLowerStr, str] using h
    obtain ⟨a, b, c, habc⟩ := List.length_eq_three.mp hlen
    rw [habc] at hlow
    simp only [toLowerStr, List.map_cons, List.map_nil, str, String.toList] at hlow
    obtain ⟨ha, hb2, hc2⟩ : Char.toLower a = 'e' ∧ Char.toLower b = 'n' ∧ Char.toLower c = 'd' := by
      simpa using hlow
    have hna : ('=' : Char) ≠ a := fun w => by rw [← w] at ha; exact absurd ha (by decide)
    have hnb : ('=' : Char) ≠ b := fun w => by rw [← w] at hb2; exact absurd hb2 (by decide)
    have hnc : ('=' : Char) ≠ c := fun w => by rw [← w] at hc2; exact absurd hc2 (by decide)
    have hcont : (strippedOf line).contains '=' = false := by
      rw [habc]
      simp [hna, hnb, hnc]
    have hb0 := bracketTrigger_false_of_no_eq _ hcont
    have hp0 := plainAssignTrigger_false_of_no_eq _ hcont
    have hep : ¬(toLowerStr (strippedOf line) = str "end program") := fun w =>
      absurd (hlow0.symm.trans w) (by decide)
    constructor
    · intro hge
      have hcore : processLineCore st n (origOf line) (strippedOf line) =
          .ok { st with indent := st.indent - 1 } := by
        unfold processLineCore
        rw [if_neg (by simp [hb0]), if_neg (by simp [hp0]), if_neg hep, if_pos hlow0,
            if_neg (by omega)]
      unfold processLine
      dsimp only []
      rw [if_neg (by rw [habc]; simp), hcore]
    · intro hlt
      have hcore : processLineCore st n (origOf line) (strippedOf line) =
          .error (.dsl n (origOf line) (str "Unmatched \x27end\x27 statement")) := by
        unfold processLineCore
        rw [if_neg (by simp [hb0]), if_neg (by simp [hp0]), if_neg hep, if_pos hlow0,
            if_pos hlt]
      unfold processLine
      dsimp only []
      rw [if_neg (by rw [habc]; simp), hcore]
  · intro source st hg hpos
    unfold compile_language
    dsimp only []
    rw [hg]
    dsimp only []
    rw [if_pos (by omega)]

/-- C2 witness: the state machine instantiated on concrete lines - an `if`
opener incrementing depth 0 to 1, an `end` at depth 1 decrementing to 0, an
`end` at depth 0 failing, and a program left open failing at end-of-input. -/
theorem block_depth_state_machine_witness :
    ((⟨[str "if x:"], 1, false⟩ : CState).indent = (⟨[], 0, false⟩ : CState).indent + 1) ∧
    (processLine ⟨[], 1, false⟩ 2 (str "end") = .ok ⟨[], 0, false⟩) ∧
    (processLine ⟨[], 0, false⟩ 1 (str "end") =
      .error (.dsl 1 (str "end") (str "Unmatched \x27end\x27 statement"))) ∧
    (compile_language (str "if x") =
      .error (.dsl 1 []
        (str "Unclosed block statements detected. Some blocks are not properly terminated with \x27end\x27."))) := by
  refine ⟨?_, ?_, ?_, ?_⟩
  · exact block_depth_state_machine.1 ⟨[], 0, false⟩ 1 (str "if x")
      ⟨[str "if x:"], 1, false⟩ (str "x") (Or.inl (by decide)) (by decide) (by decide)
  · exact (block_depth_state_machine.2.1 ⟨[], 1, false⟩ 2 (str "end") (by decide)).1 (by decide)
  · exact (block_depth_state_machine.2.1 ⟨[], 0, false⟩ 1 (str "end") (by decide)).2 (by decide)
  · exact block_depth_state_machine.2.2 (str "if x") ⟨[str "if x:"], 1, false⟩
      (by decide) (by decide)

/-- C5: every successful line leaves the previous output as a prefix and
appends at most one statement line, and any appended line starts with the
indentation of the depth in effect before the statement (block-opening
lines are emitted before the increment, terminators emit nothing). -/
theorem emitted_line_indentation (st : CState) (n : Nat) (raw : Str) (st' : CState)
    (h : processLine st n raw = .ok st') :
    st'.output = st.output ∨
    ∃ body, st'.output = st.output ++ [indentStr st.indent ++ body] := by
  rcases processLine_ok_core st n raw st' h with ⟨-, rfl⟩ | ⟨-, hc⟩
  · exact Or.inl rfl
  · unfold processLineCore at hc
    by_cases c1 : bracketTrigger (strippedOf raw) = true
    · rw [if_pos c1] at hc
      obtain ⟨⟨b, hb⟩, -, -⟩ := compile_bracket_assign_ok _ _ _ hc
      exact Or.inr ⟨b, hb⟩
    · rw [if_neg c1] at hc
      by_cases c2 : plainAssignTrigger (strippedOf raw) = true
      · rw [if_pos c2] at hc
        obtain ⟨⟨b, hb⟩, -, -⟩ := compile_plain_assign_ok _ _ _ hc
        exact Or.inr ⟨b, hb⟩
      · rw [if_neg c2] at hc
        by_cases c3 : toLowerStr (strippedOf raw) = str "end program"
        · rw [if_pos c3] at hc
          replace hc := Except.ok.inj hc
          subst hc
          exact Or.inr ⟨_, rfl⟩
        · rw [if_neg c3] at hc
          by_cases c4 : toLowerStr (strippedOf raw) = str "end"
          · rw [if_pos c4] at hc
            split at hc
            · exact Except.noConfusion hc
            · replace hc := Except.ok.inj hc
              subst hc
              exact Or.inl rfl
          · rw [if_neg c4] at hc
            by_cases c5 : (str "if ").isPrefixOf (strippedOf raw) = true
            · rw [if_pos c5] at hc
              obtain ⟨⟨b, hb⟩, -, -⟩ := compile_if_ok _ _ _ _ _ hc
              exact Or.inr ⟨b, hb⟩
            · rw [if_neg c5] at hc
              by_cases c6 : (str "while ").isPrefixOf (strippedOf raw) = true
              · rw [if_pos c6] at hc
                obtain ⟨⟨b, hb⟩, -, -⟩ := compile_while_ok _ _ _ _ _ hc
                exact Or.inr ⟨b, hb⟩
              · rw [if_neg c6] at hc
                by_cases c7 : (str "for ").isPrefixOf (strippedOf raw) = true
                · rw [if_pos c7] at hc
                  obtain ⟨⟨b, hb⟩, -, -⟩ := compile_for_ok _ _ _ _ _ hc
                  exact Or.inr ⟨b, hb⟩
                · rw [if_neg c7] at hc
                  by_cases c8 : (str "print").isPrefixOf (strippedOf raw) = true
                  · rw [if_pos c8] at hc
                    obtain ⟨⟨b, hb⟩, -, -⟩ := compile_print_ok _ _ _ _ _ hc
                    exact Or.inr ⟨b, hb⟩
                  · rw [if_neg c8] at hc
                    by_cases c9 : (str "storage").isPrefixOf (strippedOf raw) = true
                    · rw [if_pos c9] at hc
                      obtain ⟨⟨b, hb⟩, -, -⟩ := compile_storage_ok _ _ _ _ _ hc
                      exact Or.inr ⟨b, hb⟩
                    · rw [if_neg c9] at hc
                      obtain ⟨hor, -, -⟩ := compile_dispatch_ok _ _ _ _ _ hc
                      exact hor

/-- C5 witness: a `print` line at depth 0 appends exactly one line with the
empty (depth-0) indentation prefix. -/
theorem emitted_line_indentation_witness :
    ([str "print(5)"] : List Str) = ([] : List Str) ∨
    ∃ body, ([str "print(5)"] : List Str) = ([] : List Str) ++ [indentStr 0 ++ body] := by
  exact emitted_line_indentation ⟨[], 0, false⟩ 1 (str "print 5")
    ⟨[str "print(5)"], 0, false⟩ (by decide)

/-- C10: every line recognized as a counted loop, at any state (hence any
nesting depth), is compiled to bind the fixed loop variable `i`: the emitted
line is `for i in range(<start>, <end> + 1):` and the source notation offers
no position for a different variable name. -/
theorem for_loop_binds_i (st : CState) (n : Nat) (raw : Str) (cs s e : Str)
    (hshape : strippedOf raw = 'f' :: 'o' :: 'r' :: ' ' :: cs)
    (hb : bracketTrigger (strippedOf raw) = false)
    (hw : pyWords (strippedOf raw) = [str "for", s, str "to", e, str "do"])
    (hs : s ≠ []) (he : e ≠ []) :
    processLine st n raw =
      .ok { st with
            output := st.output ++ [indentStr st.indent ++
              (str "for i in range(" ++ s ++ str ", " ++ e ++ str " + 1):")],
            indent := st.indent + 1 } := by
  have hcore : processLineCore st n (origOf raw) (strippedOf raw) =
      .ok { st with
            output := st.output ++ [indentStr st.indent ++
              (str "for i in range(" ++ s ++ str ", " ++ e ++ str " + 1):")],
            indent := st.indent + 1 } := by
    unfold processLineCore
    rw [hshape] at hb ⊢
    rw [if_neg (by simp [hb]),
        if_neg (by simp +decide [plainAssignTrigger, str, List.isPrefixOf]),
        if_neg (by simp +decide [toLowerStr, str]),
        if_neg (by simp +decide [toLowerStr, str]),
        if_neg (by simp +decide [str, List.isPrefixOf]),
        if_neg (by simp +decide [str, List.isPrefixOf]),
        if_pos (by simp +decide [str, List.isPrefixOf])]
    unfold compile_for
    rw [← hshape, hw]
    dsimp only []
    rw [if_neg (by simp), if_neg (by simp [hs, he])]
    rfl
  unfold processLine
  dsimp only []
  rw [if_neg (by rw [hshape]; simp), hcore]

/-- C10 witness: `for 1 to 3 do` at nesting depth 2 emits the loop line
binding `i` at depth-2 indentation and increments the depth to 3. -/
theorem for_loop_binds_i_witness :
    processLine ⟨[], 2, false⟩ 1 (str "for 1 to 3 do") =
      .ok ⟨[indentStr 2 ++ (str "for i in range(" ++ str "1" ++ str ", " ++ str "3" ++ str " + 1):")],
           3, false⟩ := by
  exact for_loop_binds_i ⟨[], 2, false⟩ 1 (str "for 1 to 3 do") (str "1 to 3 do")
    (str "1") (str "3") (by decide) (by decide) (by decide) (by decide) (by decide)

/-- C3 (amended): for a line whose first token is the print keyword, the
classifier tests the index/subscript-assignment shape first: when the line
contains `[`, `]` and `=` it is compiled by the subscript-assignment
branch; only otherwise does the output branch handle it. -/
theorem print_dispatch_order (st : CState) (n : Nat) (orig cs stripped : Str)
    (hs : stripped = 'p' :: 'r' :: 'i' :: 'n' :: 't' :: ' ' :: cs) :
    (bracketTrigger stripped = true →
      processLineCore st n orig stripped = compile_bracket_assign st stripped) ∧
    (bracketTrigger stripped = false →
      processLineCore st n orig stripped = compile_print st n orig stripped) := by
  constructor
  · intro hb
    unfold processLineCore
    rw [if_pos hb]
  · intro hb
    unfold processLineCore
    rw [hs] at hb ⊢
    rw [if_neg (by simp [hb]),
        if_neg (by simp +decide [plainAssignTrigger, str, List.isPrefixOf]),
        if_neg (by simp +decide [toLowerStr, str]),
        if_neg (by simp +decide [toLowerStr, str]),
        if_neg (by simp +decide [str, List.isPrefixOf]),
        if_neg (by simp +decide [str, List.isPrefixOf]),
        if_neg (by simp +decide [str, List.isPrefixOf]),
        if_pos (by simp +decide [str, List.isPrefixOf])]

/-- C3 witness: `print x[0] == 1` is routed to the subscript-assignment
branch; `print 5` is routed to the output branch. -/
theorem print_dispatch_order_witness :
    (processLineCore ⟨[], 0, false⟩ 1 (str "print x[0] == 1") (str "print x[0] == 1") =
      compile_bracket_assign ⟨[], 0, false⟩ (str "print x[0] == 1")) ∧
    (processLineCore ⟨[], 0, false⟩ 1 (str "print 5") (str "print 5") =
      compile_print ⟨[], 0, false⟩ 1 (str "print 5") (str "print 5")) := by
  constructor
  · exact (print_dispatch_order ⟨[], 0, false⟩ 1 (str "print x[0] == 1")
      (str "x[0] == 1") (str "print x[0] == 1") (by decide)).1 (by decide)
  · exact (print_dispatch_order ⟨[], 0, false⟩ 1 (str "print 5")
      (str "5") (str "print 5") (by decide)).2 (by decide)

/-- C8 (amended): a plain assignment (a line with `=` not captured by the
subscript branch and not starting with a declaration, control, or print
keyword) always succeeds, emitting `lhs = rhs` with only the boolean
literals of the value normalized; a leading text-literal keyword in the
value is left verbatim, never quoted (quoting happens only in the
subscript-assignment branch). -/
theorem plain_assign_normalizes_booleans_only (st : CState) (n : Nat) (orig stripped : Str)
    (hp : plainAssignTrigger stripped = true)
    (hb : bracketTrigger stripped = false) :
    processLineCore st n orig stripped =
      .ok (emitSt st (pyStrip (splitOnCharFirst '=' stripped).1 ++ str " = " ++
        joinSp (normalize_booleans (pyWords (splitOnCharFirst '=' stripped).2)))) := by
  unfold processLineCore
  rw [if_neg (by simp [hb]), if_pos hp]
  rfl

/-- C8 witness: `x = text hello` keeps the text keyword verbatim and
`y = true` normalizes the boolean literal. -/
theorem plain_assign_normalizes_booleans_only_witness :
    (processLineCore ⟨[], 0, false⟩ 1 (str "x = text hello") (str "x = text hello") =
      .ok (emitSt ⟨[], 0, false⟩ (pyStrip (splitOnCharFirst '=' (str "x = text hello")).1 ++
        str " = " ++ joinSp (normalize_booleans (pyWords (splitOnCharFirst '=' (str "x = text hello")).2))))) ∧
    (processLineCore ⟨[], 0, false⟩ 1 (str "y = true") (str "y = true") =
      .ok (emitSt ⟨[], 0, false⟩ (pyStrip (splitOnCharFirst '=' (str "y = true")).1 ++
        str " = " ++ joinSp (normalize_booleans (pyWords (splitOnCharFirst '=' (str "y = true")).2))))) := by
  constructor
  · exact plain_assign_normalizes_booleans_only ⟨[], 0, false⟩ 1 (str "x = text hello")
      (str "x = text hello") (by decide) (by decide)
  · exact plain_assign_normalizes_booleans_only ⟨[], 0, false⟩ 1 (str "y = true")
      (str "y = true") (by decide) (by decide)

/-- C4 (amended): every failure surfaces as exactly one `DSLCompilerError`;
a non-`DSLCompilerError` exception is re-wrapped at the per-line boundary
with the current line's number and raw text, while an exception already of
the `DSLCompilerError` type propagates unchanged, keeping whatever line
metadata (possibly line 0 and empty text) it was constructed with. -/
theorem error_wrapping_per_line :
    (∀ (source : Str) (e : PyErr), compile_language source = .error e →
      ∃ ln tx msg, e = .dsl ln tx msg) ∧
    (∀ (st : CState) (n : Nat) (raw : Str) (m : Str),
      (strippedOf raw).isEmpty = false →
      processLineCore st n (origOf raw) (strippedOf raw) = .error (.exc m) →
      processLine st n raw = .error (.dsl n (origOf raw) m)) ∧
    (∀ (st : CState) (n : Nat) (raw : Str) (ln : Nat) (tx msg : Str),
      (strippedOf raw).isEmpty = false →
      processLineCore st n (origOf raw) (strippedOf raw) = .error (.dsl ln tx msg) →
      processLine st n raw = .error (.dsl ln tx msg)) := by
  refine ⟨compile_language_error_dsl, ?_, ?_⟩
  · intro st n raw m he hc
    unfold processLine
    dsimp only []
    rw [if_neg (by simp [he]), hc]
  · intro st n raw ln tx msg he hc
    unfold processLine
    dsimp only []
    rw [if_neg (by simp [he]), hc]

/-- C4 witness: an unknown command surfaces as a `DSLCompilerError`; a bare
`print random foo` fails with a plain exception inside the random
subcompiler and is re-wrapped with line metadata; a lone `if` yields a `DSLCompilerError`
passed through unchanged. -/
theorem error_wrapping_per_line_witness :
    (∃ ln tx msg, (PyErr.dsl 1 (str "foo bar") (str "Unknown command: \x27foo bar\x27")) =
      .dsl ln tx msg) ∧
    (processLine ⟨[], 0, false⟩ 1 (str "print random foo") =
      .error (.dsl 1 (str "print random foo")
        (str "Unknown random type: foo. Expected \x27number\x27, \x27text\x27, or \x27boolean\x27."))) ∧
    (processLine ⟨[], 0, false⟩ 1 (str "if") =
      .error (.dsl 1 (str "if") (str "Unknown command: \x27if\x27"))) := by
  refine ⟨?_, ?_, ?_⟩
  · exact error_wrapping_per_line.1 (str "foo bar")
      (.dsl 1 (str "foo bar") (str "Unknown command: \x27foo bar\x27")) (by decide)
  · exact error_wrapping_per_line.2.1 ⟨[], 0, false⟩ 1 (str "print random foo")
      (str "Unknown random type: foo. Expected \x27number\x27, \x27text\x27, or \x27boolean\x27.")
      (by decide) (by decide)
  · exact error_wrapping_per_line.2.2 ⟨[], 0, false⟩ 1 (str "if") 1 (str "if")
      (str "Unknown command: \x27if\x27") (by decide) (by decide)

/-- C7: for a storage declaration that parses and whose value expression
compiles (by any of the value-compilation paths, abstracted by
`storage_value_expr`), a `number`/`integer` declaration wraps the compiled
value in `int(...)` and a `float` declaration wraps it in `float(...)`. -/
theorem storage_numeric_coercion (st : CState) (n : Nat) (orig stripped : Str)
    (p0 var : Str) (exprToks : List Str) (e : Str) (r : Bool)
    (hp : pyWords (pyStrip (stripped.drop 7)) = p0 :: var :: str "=" :: exprToks)
    (hne : exprToks ≠ [])
    (hvar : pyIsIdentifier var = true)
    (hval : storage_value_expr n orig (toLowerStr p0) exprToks = .ok (e, r)) :
    ((toLowerStr p0 = str "number" ∨ toLowerStr p0 = str "integer") →
      compile_storage st n orig stripped =
        .ok { st with
              output := st.output ++
                [indentStr st.indent ++ (var ++ str " = " ++ (str "int(" ++ e ++ str ")"))],
              randomUsed := st.randomUsed || r }) ∧
    (toLowerStr p0 = str "float" →
      compile_storage st n orig stripped =
        .ok { st with
              output := st.output ++
                [indentStr st.indent ++ (var ++ str " = " ++ (str "float(" ++ e ++ str ")"))],
              randomUsed := st.randomUsed || r }) := by
  constructor
  · intro htyp
    have hall : toLowerStr p0 ∈ allowed_types := by
      rcases htyp with h | h <;> rw [h] <;> decide
    unfold compile_storage
    dsimp only []
    rw [hp]
    dsimp only []
    rw [if_neg (by simp [hall]), if_neg (by simp [hvar]), if_neg (by simp),
        if_neg (by simp [hne]), hval]
    dsimp only [Bind.bind, Except.bind]
    rcases htyp with h | h <;> rw [h]
    · rw [if_neg (by decide), if_pos (by decide)]
    · rw [if_neg (by decide), if_pos (by decide)]
  · intro htyp
    have hall : toLowerStr p0 ∈ allowed_types := by
      rw [htyp]; decide
    unfold compile_storage
    dsimp only []
    rw [hp]
    dsimp only []
    rw [if_neg (by simp [hall]), if_neg (by simp [hvar]), if_neg (by simp),
        if_neg (by simp [hne]), hval]
    dsimp only [Bind.bind, Except.bind]
    rw [htyp]
    rw [if_pos (by decide)]

/-- C7 witness: `storage number x = 5` emits `x = int(5)` and
`storage float y = 5` emits `y = float(5)`. -/
theorem storage_numeric_coercion_witness :
    (compile_storage ⟨[], 0, false⟩ 1 (str "storage number x = 5") (str "storage number x = 5") =
      .ok ⟨[str "x = int(5)"], 0, false⟩) ∧
    (compile_storage ⟨[], 0, false⟩ 1 (str "storage float y = 5") (str "storage float y = 5") =
      .ok ⟨[str "y = float(5)"], 0, false⟩) := by
  constructor
  · exact (storage_numeric_coercion ⟨[], 0, false⟩ 1 (str "storage number x = 5")
      (str "storage number x = 5") (str "number") (str "x") [str "5"] (str "5") false
      (by decide) (by decide) (by decide) (by decide)).1 (Or.inl (by decide))
  · exact (storage_numeric_coercion ⟨[], 0, false⟩ 1 (str "storage float y = 5")
      (str "storage float y = 5") (str "float") (str "y") [str "5"] (str "5") false
      (by decide) (by decide) (by decide) (by decide)).2 (by decide)

/-- C9: every successfully compiled program consists of the four fixed core
header import lines, then the randomization import exactly when some source
line compiled a random expression, then the translated statement lines. -/
theorem random_header_contract (source out : Str)
    (h : compile_language source = .ok out) :
    ∃ body, out = joinWith (str "\n")
      ((coreHeaders ++
        (if (splitlinesPy source).any lineUsesRandom then [str "import random"] else [])) ++
       body) := by
  unfold compile_language at h
  dsimp only [] at h
  rcases hg : goLines (splitlinesPy source) 1 initState with e | st <;> rw [hg] at h
  · exact Except.noConfusion h
  · dsimp only [] at h
    by_cases hi : st.indent ≠ 0
    · rw [if_pos hi] at h
      exact Except.noConfusion h
    · rw [if_neg hi] at h
      replace h := Except.ok.inj h
      subst h
      refine ⟨st.output, ?_⟩
      have hflag := goLines_ok_flag (splitlinesPy source) 1 initState st hg
      rw [hflag]
      simp [initState]

/-- C9 witness: `print random boolean` compiles with the randomization
header present after the four core headers. -/
theorem random_header_contract_witness :
    (compile_language (str "print random boolean") =
      .ok (str "import math\nimport sys\nimport datetime\nimport os\nimport random\nprint(random.choice([True, False]))")) ∧
    (∃ body,
      str "import math\nimport sys\nimport datetime\nimport os\nimport random\nprint(random.choice([True, False]))" =
      joinWith (str "\n")
        ((coreHeaders ++
          (if (splitlinesPy (str "print random boolean")).any lineUsesRandom then
            [str "import random"] else [])) ++
         body)) := by
  refine ⟨by decide, random_header_contract (str "print random boolean") _ (by decide)⟩

/-- The flat token form of a `createdictionary` pair sequence:
`key <k> value <v...>` for each pair, in order. -/
def cdFlatten (pairs : List (Str × List Str)) : List Str :=
  (pairs.map (fun kv => str "key" :: kv.1 :: str "value" :: kv.2)).flatten

/-- One emitted dictionary entry `'<k>': <e>`. -/
def cdEntry (k e : Str) : Str := squote :: (k ++ [squote] ++ str ": " ++ e)

/-- Order-preserving compilation of a pair list: each value segment through
`cd_value_expr`, each entry rendered with its key, first failure wins. -/
def cdCompilePairs (pairs : List (Str × List Str)) : Except PyErr (List Str) :=
  match pairs with
  | [] => .ok []
  | kv :: ps => do
    let e ← cd_value_expr kv.2
    let rest ← cdCompilePairs ps
    .ok (cdEntry kv.1 e :: rest)

theorem cdFlatten_nil : cdFlatten [] = [] := rfl

theorem cdFlatten_cons (k : Str) (v : List Str) (ps : List (Str × List Str)) :
    cdFlatten ((k, v) :: ps) = str "key" :: k :: str "value" :: (v ++ cdFlatten ps) := by
  simp [cdFlatten]

/-- `takeWhile` over a block of satisfying tokens followed by a stopper. -/
theorem takeWhile_block {p : Str → Bool} (v rest : List Str)
    (hv : ∀ x ∈ v, p x = true)
    (hrest : rest = [] ∨ ∃ y t, rest = y :: t ∧ p y = false) :
    (v ++ rest).takeWhile p = v := by
  induction v with
  | nil =>
    rcases hrest with rfl | ⟨y, t, rfl, hy⟩
    · rfl
    · simp [List.takeWhile_cons, hy]
  | cons a v ih =>
    have ha := hv a (by simp)
    simp only [List.cons_append, List.takeWhile_cons, ha, if_true]
    rw [ih (fun x hx => hv x (by simp [hx]))]

/-- The pair loop on a well-formed flat pair sequence compiles each pair in
order: the keys appear in source order and each value segment goes through
`cd_value_expr` (recursive builtin compilation or literal quoting). -/
theorem createdictLoop_flatten (pairs : List (Str × List Str))
    (hwf : ∀ kv ∈ pairs, kv.2 ≠ [] ∧ ∀ t ∈ kv.2, t ≠ str "key" ∧ t ≠ str "value") :
    ∀ i, createdictLoop i (cdFlatten pairs) = cdCompilePairs pairs := by
  induction pairs with
  | nil =>
    intro i
    rw [cdFlatten_nil]
    simp only [createdictLoop, cdCompilePairs]
  | cons kv ps ih =>
    obtain ⟨k, v⟩ := kv
    intro i
    obtain ⟨hvne, hvtok⟩ := hwf (k, v) (by simp)
    have hps := fun kv2 hm => hwf kv2 (List.mem_cons_of_mem _ hm)
    rw [cdFlatten_cons]
    simp only [createdictLoop]
    rw [if_neg (by simp)]
    have hg0 : pyGet (k :: str "value" :: (v ++ cdFlatten ps)) 0 = .ok k := by
      simp [pyGet]
    have hg1 : pyGet (k :: str "value" :: (v ++ cdFlatten ps)) 1 = .ok (str "value") := by
      simp [pyGet]
    rw [hg0, hg1]
    dsimp only [Bind.bind, Except.bind]
    rw [if_neg (by simp)]
    have hdrop : (k :: str "value" :: (v ++ cdFlatten ps)).drop 2 = v ++ cdFlatten ps := rfl
    rw [hdrop]
    have htake : (v ++ cdFlatten ps).takeWhile
        (fun x => x ≠ str "key" && x ≠ str "value") = v := by
      apply takeWhile_block
      · intro x hx
        obtain ⟨h1, h2⟩ := hvtok x hx
        simp [h1, h2]
      · rcases ps with _ | ⟨⟨k2, v2⟩, ps2⟩
        · exact Or.inl cdFlatten_nil
        · refine Or.inr ⟨str "key", _, by rw [cdFlatten_cons], by simp⟩
    rw [htake]
    rw [if_neg (by simp [hvne])]
    have hdrop2 : (v ++ cdFlatten ps).drop v.length = cdFlatten ps := List.drop_left v _
    rw [hdrop2]
    unfold cdCompilePairs
    rcases hval : cd_value_expr v with e | ve
    · simp [hval, Bind.bind, Except.bind]
    · simp only [hval, Bind.bind, Except.bind]
      rcases ps with _ | ⟨⟨k2, v2⟩, ps2⟩
      · rw [cdFlatten_nil]
        simp only [List.head?]
        unfold cdCompilePairs
        simp only [Bind.bind, Except.bind]
        rfl
      · rw [cdFlatten_cons]
        simp only [List.head?]
        rw [if_pos (Or.inl trivial)]
        have ihx := ih hps (i + 3 + v.length)
        rw [cdFlatten_cons] at ihx
        rw [ihx]
        rcases hm : cdCompilePairs ((k2, v2) :: ps2) with e2 | es
        · simp [hm, Bind.bind, Except.bind, cdEntry]
        · simp [hm, Bind.bind, Except.bind, cdEntry]

/-- C6 (amended): `createdictionary` first requires the token count after
the name to be a multiple of four; a pair sequence passing that check is
parsed as repeating `key <k> value <v...>` groups (a value segment may
span several tokens, up to the next `key`/`value` keyword, whenever the
lengths keep the total a multiple of four), emitting a mapping
construction that preserves source key order, with each value segment
compiled through `cd_value_expr` (recursively through the builtin compiler
when its first token is in `builtin_funcs`, otherwise quoted whole as one
space-joined text literal); a token where `key` was expected, a token
where `value` was expected, and an empty value segment each fail with
their descriptive structural error. -/
theorem createdict_pair_parsing :
    (∀ (pairs : List (Str × List Str)),
      (∀ kv ∈ pairs, kv.2 ≠ [] ∧ ∀ t ∈ kv.2, t ≠ str "key" ∧ t ≠ str "value") →
      normalize_booleans (str "createdictionary" :: cdFlatten pairs) =
        str "createdictionary" :: cdFlatten pairs →
      (cdFlatten pairs).length % 4 = 0 →
      compile_builtin_expression (str "createdictionary" :: cdFlatten pairs) =
        (cdCompilePairs pairs).map
          (fun entries => some (str "\x7b" ++ joinWith (str ", ") entries ++ str "\x7d"))) ∧
    (∀ (i : Nat) (t : Str) (rest1 : List Str), t ≠ str "key" →
      createdictLoop i (t :: rest1) = .error (.dsl 0 []
        (str "Syntax error in \x27createdictionary\x27: Expected keyword \x27key\x27 at position " ++
         natToStr i ++ str ", but found \x27" ++ t ++
         str "\x27. Dictionary key-value pairs must start with \x27key\x27."))) ∧
    (∀ (i : Nat) (k t2 : Str) (rest2 : List Str), t2 ≠ str "value" →
      createdictLoop i (str "key" :: k :: t2 :: rest2) = .error (.dsl 0 []
        (str "Syntax error in \x27createdictionary\x27: Expected keyword \x27value\x27 after key \x27" ++
         k ++ str "\x27 at position " ++ natToStr (i + 2) ++
         str ", but found \x27" ++ t2 ++ str "\x27."))) ∧
    (∀ (i : Nat) (k x : Str) (rest2 : List Str), (x = str "key" ∨ x = str "value") →
      createdictLoop i (str "key" :: k :: str "value" :: x :: rest2) = .error (.dsl 0 []
        (str "Syntax error in \x27createdictionary\x27: Missing value after \x27value\x27 keyword for key \x27" ++
         k ++ str "\x27. Each \x27value\x27 keyword must be followed by a value expression."))) := by
  refine ⟨?_, ?_, ?_, ?_⟩
  · intro pairs hwf hnorm hmod
    rw [compile_builtin_expression.eq_def]
    dsimp only []
    rw [hnorm]
    dsimp only []
    repeat rw [if_neg (by decide)]
    rw [if_pos (by decide)]
    rw [if_neg (by simp [List.length_cons, hmod])]
    rw [createdictLoop_flatten pairs hwf 1]
    rcases hm : cdCompilePairs pairs with e | es
    · rfl
    · rfl
  · intro i t rest1 ht
    simp only [createdictLoop]
    rw [if_pos ht]
  · intro i k t2 rest2 ht
    simp only [createdictLoop]
    rw [if_neg (by simp)]
    have hg0 : pyGet (k :: t2 :: rest2) 0 = .ok k := by simp [pyGet]
    have hg1 : pyGet (k :: t2 :: rest2) 1 = .ok t2 := by simp [pyGet]
    rw [hg0, hg1]
    dsimp only [Bind.bind, Except.bind]
    rw [if_pos ht]
  · intro i k x rest2 hx
    simp only [createdictLoop]
    rw [if_neg (by simp)]
    have hg0 : pyGet (k :: str "value" :: x :: rest2) 0 = .ok k := by simp [pyGet]
    have hg1 : pyGet (k :: str "value" :: x :: rest2) 1 = .ok (str "value") := by simp [pyGet]
    rw [hg0, hg1]
    dsimp only [Bind.bind, Except.bind]
    rw [if_neg (by simp)]
    have htw : (x :: rest2).takeWhile (fun y => y ≠ str "key" && y ≠ str "value") = [] := by
      rcases hx with rfl | rfl <;> simp [List.takeWhile_cons]
    have hdrop : (k :: str "value" :: x :: rest2).drop 2 = x :: rest2 := rfl
    rw [hdrop, htw]
    simp

/-- C6 counterexample: `createdictionary key a value 1 2` is a well-formed
repeating key/value pair sequence (key `a`, two-token value segment
`1 2`), yet the compiler rejects it with the argument-count error because
`(len(tokens)-1) % 4 != 0` is checked before pair parsing. -/
theorem createdict_rejects_multitoken_value :
    compile_builtin_expression
      [str "createdictionary", str "key", str "a", str "value", str "1", str "2"] =
      .error (.dsl 0 []
        (str "Syntax error in \x27createdictionary\x27: Incorrect number of arguments. Expected key-value pairs like \x27key <key> value <value> ...\x27")) := by
  simp +decide [compile_builtin_expression, normalize_booleans, toLowerStr, str,
    math_funcs_mapping, List.lookup]

/-- C6 witness: the two-pair program of the specification example; a
one-pair program with the five-token value segment `1 2 3 4 5` (total
token count `8 % 4 = 0`, so the pre-check passes and the segment is
accepted whole); and a pair sequence starting with `value` failing with
the expected-`key` diagnostic. -/
theorem createdict_pair_parsing_witness :
    (compile_builtin_expression
      (str "createdictionary" :: cdFlatten [(str "a", [str "1"]), (str "b", [str "2"])]) =
      (cdCompilePairs [(str "a", [str "1"]), (str "b", [str "2"])]).map
        (fun entries => some (str "\x7b" ++ joinWith (str ", ") entries ++ str "\x7d"))) ∧
    (compile_builtin_expression
      (str "createdictionary" ::
        cdFlatten [(str "a", [str "1", str "2", str "3", str "4", str "5"])]) =
      (cdCompilePairs [(str "a", [str "1", str "2", str "3", str "4", str "5"])]).map
        (fun entries => some (str "\x7b" ++ joinWith (str ", ") entries ++ str "\x7d"))) ∧
    (cdCompilePairs [(str "a", [str "1", str "2", str "3", str "4", str "5"])] =
      .ok [str "\x27a\x27: \x221 2 3 4 5\x22"]) ∧
    (createdictLoop 1 [str "value", str "a"] = .error (.dsl 0 []
      (str "Syntax error in \x27createdictionary\x27: Expected keyword \x27key\x27 at position " ++
       natToStr 1 ++ str ", but found \x27" ++ str "value" ++
       str "\x27. Dictionary key-value pairs must start with \x27key\x27."))) := by
  refine ⟨?_, ?_, ?_, ?_⟩
  · exact createdict_pair_parsing.1 [(str "a", [str "1"]), (str "b", [str "2"])]
      (by decide) (by decide) (by decide)
  · exact createdict_pair_parsing.1 [(str "a", [str "1", str "2", str "3", str "4", str "5"])]
      (by decide) (by decide) (by decide)
  · simp +decide [cdCompilePairs, cd_value_expr, cdEntry, builtin_funcs, str, quoteD,
      joinSp, joinWith, List.intercalate, Bind.bind, Except.bind, squote, dquote]
  · exact createdict_pair_parsing.2.1 1 (str "value") [str "a"] (by decide)
